import Mathlib

/-!
# Publisher / Subscriber broker (`main.cpp`)

A shallow embedding of the broker of `main.cpp`: the `Message` record, the two
publishers (`EquityPublisher`, `BondPublisher`), the two subscriber kinds
(`FreeSubscriber`, `PaidSubscriber`), the `Broker` registry and `parseInput`.

Modelling decisions:

* `std::uint64_t` identifiers are natural numbers; no arithmetic is done on them.
* `double` values are only stored and copied; they are rationals here.  The one
  conversion `double -> uint64_t` (in `Message::Message`) truncates toward zero.
* A field of `Message` that the program never assigned holds an indeterminate
  value; it is `none` here, an assigned field is `some v`.
* `std::unordered_map<K, V>` is a finite partial map, here a function
  `Nat → Option V` (`none`: no entry).  The program never iterates over a map.
* `get_instrumentSubscribers()` returns the index by value.  Both `get_data`
  methods keep the iterator `it` that `find` returned on such a temporary copy
  after the copy has been destroyed.  Whether the subscriber has an entry is
  still decided by the index (`it` is the end iterator exactly when there is no
  entry), but `std::find` over `it->second` reads freed memory, so what it
  reports is not determined by the index.  That result is the argument `found`
  of the `get_data` definitions; `parseInput` receives it for the one lookup a
  command can make, and `runCommands` receives one result per command
  (`reads k` for the command at position `k`).  Every theorem about `get_data`
  is stated for an arbitrary or an explicitly named result of that read.
* `std::cout` output is a list of structured lines, one per `<<`-chain ending in
  a newline; number formatting is not modelled.
* `parseInput` is modelled from the point where the tokens have been extracted
  from the input line (`Command`).
-/

namespace PubSub

/-- The macro `EQUITY_INSTRUMENT_MAX`. -/
def EQUITY_INSTRUMENT_MAX : Nat := 1000

/-- The macro `BOND_INSTRUMENT_MAX`. -/
def BOND_INSTRUMENT_MAX : Nat := 2000

/-- Conversion `double -> uint64_t`: truncation toward zero; the result is
indeterminate (`none`) when the truncated value does not fit. -/
def doubleToUInt64 (x : Rat) : Option Nat :=
  let t : Int := Int.tdiv x.num (x.den : Int)
  if 0 ≤ t ∧ t < 2 ^ 64 then some t.toNat else none

/-- The struct `Message`; `none` is a field that was never assigned. -/
structure Message where
  instrumentId : Option Nat
  lastTradedPrice : Option Rat
  bondYield : Option Rat
  lastDayVolume : Option Nat
deriving DecidableEq

/-- The constructor `Message()`: no field is assigned. -/
def Message.empty : Message :=
  { instrumentId := none, lastTradedPrice := none, bondYield := none, lastDayVolume := none }

/-- The constructor `Message(instrumentId_, lastTradedPrice_, bondYieldOrLastDayVolume)`. -/
def Message.create (instrumentId_ : Nat) (lastTradedPrice_ bondYieldOrLastDayVolume : Rat) :
    Message :=
  if instrumentId_ < EQUITY_INSTRUMENT_MAX then
    { instrumentId := some instrumentId_, lastTradedPrice := some lastTradedPrice_,
      bondYield := some bondYieldOrLastDayVolume, lastDayVolume := none }
  else if instrumentId_ < BOND_INSTRUMENT_MAX then
    { instrumentId := some instrumentId_, lastTradedPrice := some lastTradedPrice_,
      bondYield := none, lastDayVolume := doubleToUInt64 bondYieldOrLastDayVolume }
  else
    { instrumentId := some instrumentId_, lastTradedPrice := some lastTradedPrice_,
      bondYield := none, lastDayVolume := none }

/-- The data members of the class `Publisher`. -/
structure Publisher where
  instrumentData_ : Nat → Option Message
  instrumentSubscribers_ : Nat → Option (List Nat)

/-- A freshly constructed publisher: both maps are empty. -/
def Publisher.empty : Publisher :=
  { instrumentData_ := fun _ => none, instrumentSubscribers_ := fun _ => none }

/-- The assignment `m[k] = v` on a map. -/
def mapSet {V : Type} (m : Nat → Option V) (k : Nat) (v : V) : Nat → Option V :=
  fun j => if j = k then some v else m j

/-- The method `EquityPublisher::is_valid_instrument`. -/
def EquityPublisher.is_valid_instrument (instrumentId : Nat) : Bool :=
  decide (instrumentId < EQUITY_INSTRUMENT_MAX)

/-- The method `BondPublisher::is_valid_instrument`. -/
def BondPublisher.is_valid_instrument (instrumentId : Nat) : Bool :=
  decide (instrumentId ≥ EQUITY_INSTRUMENT_MAX) && decide (instrumentId < BOND_INSTRUMENT_MAX)

/-- The method `EquityPublisher::update_data`. -/
def EquityPublisher.update_data (p : Publisher) (instrumentId : Nat)
    (lastTradedPrice lastDayVolume : Rat) : Publisher :=
  if EquityPublisher.is_valid_instrument instrumentId then
    let msg := Message.create instrumentId lastTradedPrice lastDayVolume
    { p with instrumentData_ := mapSet p.instrumentData_ instrumentId msg }
  else p

/-- The method `BondPublisher::update_data`. -/
def BondPublisher.update_data (p : Publisher) (instrumentId : Nat)
    (lastTradedPrice bondYield : Rat) : Publisher :=
  if BondPublisher.is_valid_instrument instrumentId then
    let msg := Message.create instrumentId lastTradedPrice bondYield
    { p with instrumentData_ := mapSet p.instrumentData_ instrumentId msg }
  else p

/-- The method `Publisher::subscribe`, given the id of the subscriber passed in:
`instrumentSubscribers_[id]` creates an empty vector when there is no entry, and
the instrument is pushed to the back unless `std::find` finds it. -/
def Publisher.subscribe (p : Publisher) (instrumentId subscriberId : Nat) : Publisher :=
  let instrumentIDs : List Nat := (p.instrumentSubscribers_ subscriberId).getD []
  if instrumentId ∈ instrumentIDs then
    { p with instrumentSubscribers_ := mapSet p.instrumentSubscribers_ subscriberId instrumentIDs }
  else
    { p with instrumentSubscribers_ :=
        mapSet p.instrumentSubscribers_ subscriberId (instrumentIDs ++ [instrumentId]) }

/-- The method `Publisher::get_data`: the returned flag and the value of the
out-parameter `data` after the call. -/
def Publisher.get_data (p : Publisher) (instrumentId : Nat) (data : Message) : Bool × Message :=
  match p.instrumentData_ instrumentId with
  | some m => (true, m)
  | none => (false, data)

/-- One line written to `std::cout`. -/
inductive Line where
  /-- The chain `tag , id , instrument , data.lastTradedPrice , data.lastDayVolume`. -/
  | equityData (tag : Char) (subscriberId instrumentId : Nat)
      (lastTradedPrice : Option Rat) (lastDayVolume : Option Nat)
  /-- The chain `tag , id , instrument , data.lastTradedPrice , data.bondYield`. -/
  | bondData (tag : Char) (subscriberId instrumentId : Nat)
      (lastTradedPrice : Option Rat) (bondYield : Option Rat)
  /-- The line of `Broker::err_msg`: `type, id, instrument, invalid request`. -/
  | invalidRequest (type : Char) (subscriberId instrumentId : Nat)
  /-- The line `Subscriber <id> of type <type> subscribed to <instrument>`. -/
  | subscribed (subscriberId : Nat) (type : Char) (instrumentId : Nat)
  /-- The line `No Publisher matches the given Instrument ID`. -/
  | noPublisher
  /-- The line `Unknown command: <command>`. -/
  | unknownCommand (command : String)
deriving DecidableEq

/-- A subscriber object: `FreeSubscriber` (with its `requestCount_`) or
`PaidSubscriber`; `id_` is the member of the base class. -/
inductive Subscriber where
  | free (id_ : Nat) (requestCount_ : Int)
  | paid (id_ : Nat)
deriving DecidableEq

/-- The method `Subscriber::get_id`. -/
def Subscriber.get_id : Subscriber → Nat
  | .free id_ _ => id_
  | .paid id_ => id_

/-- The data members of the class `Broker`. -/
structure Broker where
  equityPublisher_ : Publisher
  bondPublisher_ : Publisher
  subscribers_ : Nat → Option Subscriber

/-- A freshly constructed broker. -/
def Broker.empty : Broker :=
  { equityPublisher_ := Publisher.empty, bondPublisher_ := Publisher.empty,
    subscribers_ := fun _ => none }

/-- The method `Broker::get_subscriber`. -/
def Broker.get_subscriber (b : Broker) (subscriberId : Nat) : Option Subscriber :=
  b.subscribers_ subscriberId

/-- The method `Broker::add_subscriber`. -/
def Broker.add_subscriber (b : Broker) (subscriberId : Nat) (subscriber : Subscriber) : Broker :=
  { b with subscribers_ := mapSet b.subscribers_ subscriberId subscriber }

/-- The method `Broker::err_msg`. -/
def Broker.err_msg (type : Char) (subscriberID instrumentID : Nat) : List Line :=
  [Line.invalidRequest type subscriberID instrumentID]

/-- The method `Subscriber::subscribe`, for the subscriber with id `id_`: only the
publishers of the broker can change. -/
def Subscriber.subscribe (b : Broker) (id_ : Nat) (instrumentId : Nat) : Broker :=
  if EquityPublisher.is_valid_instrument instrumentId then
    { b with equityPublisher_ := b.equityPublisher_.subscribe instrumentId id_ }
  else if BondPublisher.is_valid_instrument instrumentId then
    { b with bondPublisher_ := b.bondPublisher_.subscribe instrumentId id_ }
  else b

/-- The constant `FreeSubscriber::MAX_REQUESTS`. -/
def MAX_REQUESTS : Int := 100

/-- The method `FreeSubscriber::get_data`: the returned flag, the value of
`requestCount_` after the call and the lines printed.  The iterator `it` points
into a destroyed copy of the index; `found` is what `std::find` over
`it->second` reports. -/
def FreeSubscriber.get_data (b : Broker) (id_ : Nat) (requestCount_ : Int) (instrumentId : Nat)
    (found : Bool) : Bool × Int × List Line :=
  if requestCount_ ≥ MAX_REQUESTS then
    (false, requestCount_, Broker.err_msg 'F' id_ instrumentId)
  else
    let data : Message := Message.empty
    if EquityPublisher.is_valid_instrument instrumentId then
      match b.equityPublisher_.instrumentSubscribers_ id_ with
      | some _ =>
        if found then
          let data := (b.equityPublisher_.get_data instrumentId data).2
          (true, requestCount_ + 1,
            [Line.equityData 'F' id_ instrumentId data.lastTradedPrice data.lastDayVolume])
        else (false, requestCount_, Broker.err_msg 'F' id_ instrumentId)
      | none => (false, requestCount_, Broker.err_msg 'F' id_ instrumentId)
    else if BondPublisher.is_valid_instrument instrumentId then
      match b.bondPublisher_.instrumentSubscribers_ id_ with
      | some _ =>
        if found then
          let data := (b.bondPublisher_.get_data instrumentId data).2
          (true, requestCount_ + 1,
            [Line.bondData 'F' id_ instrumentId data.lastTradedPrice data.bondYield])
        else (false, requestCount_, Broker.err_msg 'F' id_ instrumentId)
      | none => (false, requestCount_, Broker.err_msg 'F' id_ instrumentId)
    else (false, requestCount_, Broker.err_msg 'F' id_ instrumentId)

/-- The method `PaidSubscriber::get_data`: the returned flag and the lines
printed.  The iterator `it` points into a destroyed copy of the index; `found`
is what `std::find` over `it->second` reports. -/
def PaidSubscriber.get_data (b : Broker) (id_ : Nat) (instrumentId : Nat) (found : Bool) :
    Bool × List Line :=
  let data : Message := Message.empty
  if EquityPublisher.is_valid_instrument instrumentId then
    match b.equityPublisher_.instrumentSubscribers_ id_ with
    | some _ =>
      if found then
        let data := (b.equityPublisher_.get_data instrumentId data).2
        (true, [Line.equityData 'F' id_ instrumentId data.lastTradedPrice data.lastDayVolume])
      else (false, Broker.err_msg 'P' id_ instrumentId)
    | none => (false, Broker.err_msg 'P' id_ instrumentId)
  else if BondPublisher.is_valid_instrument instrumentId then
    match b.bondPublisher_.instrumentSubscribers_ id_ with
    | some _ =>
      if found then
        let data := (b.bondPublisher_.get_data instrumentId data).2
        (true, [Line.bondData 'F' id_ instrumentId data.lastTradedPrice data.bondYield])
      else (false, Broker.err_msg 'P' id_ instrumentId)
    | none => (false, Broker.err_msg 'P' id_ instrumentId)
  else (false, Broker.err_msg 'P' id_ instrumentId)

/-- The virtual call `subscriber->get_data(instrumentId)`: the returned flag, the
subscriber object after the call and the lines printed; `found` is the result of
the read through the dangling iterator. -/
def Subscriber.get_data (b : Broker) (s : Subscriber) (instrumentId : Nat) (found : Bool) :
    Bool × Subscriber × List Line :=
  match s with
  | .free id_ requestCount_ =>
    let r := FreeSubscriber.get_data b id_ requestCount_ instrumentId found
    (r.1, .free id_ r.2.1, r.2.2)
  | .paid id_ =>
    let r := PaidSubscriber.get_data b id_ instrumentId found
    (r.1, .paid id_, r.2)

/-- The tokens `parseInput` extracts from an input line. -/
inductive Command where
  /-- The line `P <instrumentId> <lastTradedPrice> <bondYieldOrLastDayVolume>`. -/
  | P (instrumentId : Nat) (lastTradedPrice bondYieldOrLastDayVolume : Rat)
  /-- The line `S <type> <subscriberId> <action> <instrumentId>`. -/
  | S (type : Char) (subscriberId : Nat) (action : String) (instrumentId : Nat)
  /-- A line whose first token is neither `P` nor `S`. -/
  | other (command : String)

/-- The function `parseInput`: the broker after the command and the lines
printed; `found` is the result of the read through the dangling iterator, used
only when the command reaches the lookup of a `get_data`. -/
def parseInput (input : Command) (broker_ : Broker) (found : Bool) : Broker × List Line :=
  match input with
  | .P instrumentId lastTradedPrice bondYieldOrLastDayVolume =>
    if instrumentId < EQUITY_INSTRUMENT_MAX then
      ({ broker_ with
          equityPublisher_ := (EquityPublisher.update_data broker_.equityPublisher_
            instrumentId lastTradedPrice bondYieldOrLastDayVolume) }, [])
    else if instrumentId < BOND_INSTRUMENT_MAX then
      ({ broker_ with
          bondPublisher_ := (BondPublisher.update_data broker_.bondPublisher_
            instrumentId lastTradedPrice bondYieldOrLastDayVolume) }, [])
    else (broker_, [Line.noPublisher])
  | .S type subscriberId action instrumentId =>
    if action = "subscribe" then
      let b1 :=
        if type = 'P' then broker_.add_subscriber subscriberId (Subscriber.paid subscriberId)
        else broker_.add_subscriber subscriberId (Subscriber.free subscriberId 0)
      let b2 := Subscriber.subscribe b1 subscriberId instrumentId
      (b2, [Line.subscribed subscriberId type instrumentId])
    else if action = "get_data" then
      match broker_.get_subscriber subscriberId with
      | some s =>
        let r := Subscriber.get_data broker_ s instrumentId found
        let b1 := { broker_ with subscribers_ := mapSet broker_.subscribers_ subscriberId r.2.1 }
        if !r.1 then (b1, r.2.2 ++ Broker.err_msg type subscriberId instrumentId)
        else (b1, r.2.2)
      | none => (broker_, Broker.err_msg type subscriberId instrumentId)
    else (broker_, Broker.err_msg type subscriberId instrumentId)
  | .other command => (broker_, [Line.unknownCommand command])

/-- The driver loop: commands are processed in order from a given broker; the
final broker and all lines printed.  The command at position `k` gets `reads k`
as the result of its read through the dangling iterator. -/
def runCommands : List Command → (Nat → Bool) → Broker → Broker × List Line
  | [], _, b => (b, [])
  | c :: cs, reads, b =>
    let r := parseInput c b (reads 0)
    let r2 := runCommands cs (fun k => reads (k + 1)) r.1
    (r2.1, r.2 ++ r2.2)

/-- A broker state the program can be in: the result of a command sequence
processed from the freshly constructed broker, whatever the dangling reads give. -/
def Reachable (b : Broker) : Prop :=
  ∃ (cs : List Command) (reads : Nat → Bool), (runCommands cs reads Broker.empty).1 = b

/-- The number of `get_data` commands of subscriber `u` that succeed while the
commands are processed in order from the broker `b`. -/
def servedRequests (u : Nat) : List Command → (Nat → Bool) → Broker → Nat
  | [], _, _ => 0
  | c :: cs, reads, b =>
    (match c with
      | .S _ v action j =>
        if v = u ∧ action = "get_data" then
          match b.get_subscriber u with
          | some s => if (Subscriber.get_data b s j (reads 0)).1 = true then 1 else 0
          | none => 0
        else 0
      | _ => 0) + servedRequests u cs (fun k => reads (k + 1)) (parseInput c b (reads 0)).1

/-- A data line, the report of a successful `get_data`. -/
def Line.isData : Line → Bool
  | .equityData _ _ _ _ _ => true
  | .bondData _ _ _ _ _ => true
  | _ => false


/-! ## Basic facts about the embedding -/

theorem equity_valid_iff (i : Nat) : EquityPublisher.is_valid_instrument i = true ↔ i < 1000 := by
  simp [EquityPublisher.is_valid_instrument, EQUITY_INSTRUMENT_MAX]

theorem bond_valid_iff (i : Nat) :
    BondPublisher.is_valid_instrument i = true ↔ 1000 ≤ i ∧ i < 2000 := by
  simp [BondPublisher.is_valid_instrument, EQUITY_INSTRUMENT_MAX, BOND_INSTRUMENT_MAX]

theorem mapSet_same {V : Type} (m : Nat → Option V) (k : Nat) (v : V) : mapSet m k v k = some v := by
  simp [mapSet]

theorem mapSet_other {V : Type} (m : Nat → Option V) (k j : Nat) (v : V) (h : j ≠ k) :
    mapSet m k v j = m j := by
  simp [mapSet, h]

theorem mapSet_self {V : Type} (m : Nat → Option V) (k : Nat) (v : V) (h : m k = some v) :
    mapSet m k v = m := by
  funext j
  by_cases hj : j = k
  · subst hj; simp [mapSet, h]
  · simp [mapSet, hj]

theorem mapSet_mapSet {V : Type} (m : Nat → Option V) (k : Nat) (v w : V) :
    mapSet (mapSet m k v) k w = mapSet m k w := by
  funext j
  by_cases hj : j = k <;> simp [mapSet, hj]

/-- The success flag of `FreeSubscriber::get_data`, characterised: the count is
below the quota, the instrument is routable, the subscriber has an entry in the
index of the owning feed, and the read through the dangling iterator reports the
instrument found. -/
theorem free_get_data_true_iff (b : Broker) (u : Nat) (c : Int) (i : Nat) (found : Bool) :
    (FreeSubscriber.get_data b u c i found).1 = true ↔
      c < 100 ∧ i < 2000 ∧
        (∃ ids, (if i < 1000 then b.equityPublisher_ else b.bondPublisher_).instrumentSubscribers_ u
            = some ids) ∧ found = true := by
  unfold FreeSubscriber.get_data
  by_cases hc : c ≥ MAX_REQUESTS
  · have hc2 : ¬ c < 100 := by simpa [MAX_REQUESTS] using hc
    simp [hc, hc2]
  · have hc2 : c < 100 := by simpa [MAX_REQUESTS] using hc
    rw [if_neg hc]
    by_cases he : i < 1000
    · have hv := (equity_valid_iff i).2 he
      have h2 : i < 2000 := by omega
      simp only [hv, he, if_true, hc2, h2, true_and]
      cases hm : b.equityPublisher_.instrumentSubscribers_ u with
      | none => simp
      | some ids => cases found <;> simp
    · have hv : EquityPublisher.is_valid_instrument i = false := by
        simpa [EquityPublisher.is_valid_instrument, EQUITY_INSTRUMENT_MAX] using he
      by_cases hb : i < 2000
      · have hbv := (bond_valid_iff i).2 ⟨by omega, hb⟩
        simp only [hv, hbv, he, if_true, if_false, hc2, hb, true_and, Bool.false_eq_true]
        cases hm : b.bondPublisher_.instrumentSubscribers_ u with
        | none => simp
        | some ids => cases found <;> simp
      · have hbv : BondPublisher.is_valid_instrument i = false := by
          simp [BondPublisher.is_valid_instrument, BOND_INSTRUMENT_MAX]
          intro _; omega
        simp [hv, hbv, hb]

/-- The success flag of `PaidSubscriber::get_data`, characterised: the instrument
is routable, the subscriber has an entry in the index of the owning feed, and the
read through the dangling iterator reports the instrument found. -/
theorem paid_get_data_true_iff (b : Broker) (u : Nat) (i : Nat) (found : Bool) :
    (PaidSubscriber.get_data b u i found).1 = true ↔
      i < 2000 ∧
        (∃ ids, (if i < 1000 then b.equityPublisher_ else b.bondPublisher_).instrumentSubscribers_ u
            = some ids) ∧ found = true := by
  unfold PaidSubscriber.get_data
  by_cases he : i < 1000
  · have hv := (equity_valid_iff i).2 he
    have h2 : i < 2000 := by omega
    simp only [hv, he, if_true, h2, true_and]
    cases hm : b.equityPublisher_.instrumentSubscribers_ u with
    | none => simp
    | some ids => cases found <;> simp
  · have hv : EquityPublisher.is_valid_instrument i = false := by
      simpa [EquityPublisher.is_valid_instrument, EQUITY_INSTRUMENT_MAX] using he
    by_cases hb : i < 2000
    · have hbv := (bond_valid_iff i).2 ⟨by omega, hb⟩
      simp only [hv, hbv, he, if_true, if_false, hb, true_and, Bool.false_eq_true]
      cases hm : b.bondPublisher_.instrumentSubscribers_ u with
      | none => simp
      | some ids => cases found <;> simp
    · have hbv : BondPublisher.is_valid_instrument i = false := by
        simp [BondPublisher.is_valid_instrument, BOND_INSTRUMENT_MAX]
        intro _; omega
      simp [hv, hbv, hb]

/-- The success flag of the virtual `get_data`, characterised for both kinds. -/
theorem get_data_true_iff (b : Broker) (s : Subscriber) (i : Nat) (found : Bool) :
    (Subscriber.get_data b s i found).1 = true ↔
      ((∃ u, s = Subscriber.paid u) ∨ ∃ u c, s = Subscriber.free u c ∧ c < 100) ∧ i < 2000 ∧
        (∃ ids, (if i < 1000 then b.equityPublisher_ else b.bondPublisher_).instrumentSubscribers_
            s.get_id = some ids) ∧ found = true := by
  cases s with
  | free u c =>
    have hq : ((∃ v, Subscriber.free u c = Subscriber.paid v) ∨
        ∃ v d, Subscriber.free u c = Subscriber.free v d ∧ d < 100) ↔ c < 100 := by
      constructor
      · rintro (⟨v, hv⟩ | ⟨v, d, hv, hd⟩)
        · cases hv
        · cases hv; exact hd
      · intro h; exact Or.inr ⟨u, c, rfl, h⟩
    rw [hq]
    simpa [Subscriber.get_data, Subscriber.get_id] using free_get_data_true_iff b u c i found
  | paid u =>
    have hq : ((∃ v, Subscriber.paid u = Subscriber.paid v) ∨
        ∃ v d, Subscriber.paid u = Subscriber.free v d ∧ d < 100) ↔ True := by
      simp
    rw [hq]
    simpa [Subscriber.get_data, Subscriber.get_id] using paid_get_data_true_iff b u i found

/-- The outcome of `get_data` does not depend on the subscription index beyond
the presence of an entry: for a routable instrument, a record within its quota
and a subscriber with an entry in the owning feed, the flag is the result of the
read through the dangling iterator, whether or not the instrument is in the entry. -/
theorem get_data_flag_is_read (b : Broker) (s : Subscriber) (i : Nat) (found : Bool)
    (ids : List Nat)
    (hq : (∃ u, s = Subscriber.paid u) ∨ ∃ u c, s = Subscriber.free u c ∧ c < 100)
    (hi : i < 2000)
    (he : (if i < 1000 then b.equityPublisher_ else b.bondPublisher_).instrumentSubscribers_
      s.get_id = some ids) :
    (Subscriber.get_data b s i found).1 = found := by
  cases found with
  | true => exact (get_data_true_iff b s i true).2 ⟨hq, hi, ⟨ids, he⟩, rfl⟩
  | false =>
    rw [Bool.eq_false_iff]
    intro h
    have := ((get_data_true_iff b s i false).1 h).2.2.2
    cases this

/-! ## The effect of one command on each part of the broker -/

/-- The state after a `get_data` command for a registered subscriber: only the
record of that subscriber is written. -/
theorem parseInput_get_data_state {found : Bool} (b : Broker) (t : Char) (u i : Nat) (s : Subscriber)
    (hs : b.subscribers_ u = some s) :
    (parseInput (Command.S t u "get_data" i) b found).1 =
      { b with subscribers_ := mapSet b.subscribers_ u (Subscriber.get_data b s i found).2.1 } := by
  have h1 : ¬ ("get_data" = "subscribe") := by decide
  simp only [parseInput, h1, if_false, if_true, Broker.get_subscriber, hs]
  split <;> rfl

/-- The record of a Free subscriber after its `get_data`. -/
theorem free_get_data_count {found : Bool} (b : Broker) (u : Nat) (c : Int) (i : Nat) :
    (Subscriber.get_data b (Subscriber.free u c) i found).2.1 =
      Subscriber.free u
        (if (Subscriber.get_data b (Subscriber.free u c) i found).1 = true then c + 1 else c) := by
  simp only [Subscriber.get_data, FreeSubscriber.get_data]
  repeat' split
  all_goals simp_all

/-- The state after a `subscribe` command. -/
theorem parseInput_subscribe_state {found : Bool} (b : Broker) (t : Char) (u i : Nat) :
    (parseInput (Command.S t u "subscribe" i) b found).1 =
      Subscriber.subscribe
        (b.add_subscriber u (if t = 'P' then Subscriber.paid u else Subscriber.free u 0)) u i := by
  simp only [parseInput, if_true]
  split <;> rfl

/-- The subscription index after `Publisher::subscribe`. -/
theorem Publisher.subscribe_index (p : Publisher) (i u : Nat) :
    (p.subscribe i u).instrumentSubscribers_ =
      mapSet p.instrumentSubscribers_ u
        (if i ∈ (p.instrumentSubscribers_ u).getD [] then (p.instrumentSubscribers_ u).getD []
          else (p.instrumentSubscribers_ u).getD [] ++ [i]) := by
  by_cases h : i ∈ (p.instrumentSubscribers_ u).getD [] <;> simp [Publisher.subscribe, h]

/-- The snapshot store is not touched by `Publisher::subscribe`. -/
theorem Publisher.subscribe_data (p : Publisher) (i u : Nat) :
    (p.subscribe i u).instrumentData_ = p.instrumentData_ := by
  by_cases h : i ∈ (p.instrumentSubscribers_ u).getD [] <;> simp [Publisher.subscribe, h]

/-- After `Publisher::subscribe` the instrument is in the entry of the subscriber. -/
theorem Publisher.subscribe_mem (p : Publisher) (i u : Nat) :
    ∃ ids, (p.subscribe i u).instrumentSubscribers_ u = some ids ∧ i ∈ ids := by
  rw [Publisher.subscribe_index, mapSet_same]
  refine ⟨_, rfl, ?_⟩
  split
  · assumption
  · simp

/-- After a `subscribe` command for a routable instrument the subscriber is a
member for that instrument in the owning feed. -/
theorem subscribe_member {found : Bool} (b : Broker) (t : Char) (u i : Nat) (hi : i < 2000) :
    ∃ ids, (if i < 1000 then (parseInput (Command.S t u "subscribe" i) b found).1.equityPublisher_
        else (parseInput (Command.S t u "subscribe" i) b found).1.bondPublisher_).instrumentSubscribers_ u
          = some ids ∧ i ∈ ids := by
  rw [parseInput_subscribe_state]
  unfold Subscriber.subscribe
  by_cases he : i < 1000
  · have hv := (equity_valid_iff i).2 he
    simp only [hv, he, if_true]
    exact Publisher.subscribe_mem _ i u
  · have hv : EquityPublisher.is_valid_instrument i = false := by
      simpa [EquityPublisher.is_valid_instrument, EQUITY_INSTRUMENT_MAX] using he
    have hbv := (bond_valid_iff i).2 ⟨by omega, hi⟩
    simp only [hv, hbv, he, if_true, if_false, Bool.false_eq_true]
    exact Publisher.subscribe_mem _ i u

/-- The subscribers registry after a `subscribe` command. -/
theorem subscribe_registry {found : Bool} (b : Broker) (t : Char) (u i : Nat) :
    (parseInput (Command.S t u "subscribe" i) b found).1.subscribers_ =
      mapSet b.subscribers_ u (if t = 'P' then Subscriber.paid u else Subscriber.free u 0) := by
  rw [parseInput_subscribe_state]
  unfold Subscriber.subscribe
  repeat' split
  all_goals rfl

/-- The snapshot `Message::Message` builds for an equity instrument: the third
argument is stored in `bondYield`, and `lastDayVolume` is never assigned. -/
theorem Message.create_equity (i : Nat) (p v : Rat) (hi : i < 1000) :
    Message.create i p v =
      { instrumentId := some i, lastTradedPrice := some p, bondYield := some v,
        lastDayVolume := none } := by
  simp [Message.create, EQUITY_INSTRUMENT_MAX, hi]

/-- The snapshot `Message::Message` builds for a bond instrument: the third
argument is converted into `lastDayVolume`, and `bondYield` is never assigned. -/
theorem Message.create_bond (i : Nat) (p y : Rat) (h1 : 1000 ≤ i) (h2 : i < 2000) :
    Message.create i p y =
      { instrumentId := some i, lastTradedPrice := some p, bondYield := none,
        lastDayVolume := doubleToUInt64 y } := by
  have h3 : ¬ i < 1000 := by omega
  simp [Message.create, EQUITY_INSTRUMENT_MAX, BOND_INSTRUMENT_MAX, h3, h2]

/-- A denied `FreeSubscriber::get_data` leaves the counter as it was and prints
the one invalid-request line tagged F. -/
theorem free_get_data_denied {found : Bool} (b : Broker) (u : Nat) (c : Int) (i : Nat)
    (h : (FreeSubscriber.get_data b u c i found).1 = false) :
    FreeSubscriber.get_data b u c i found = (false, c, [Line.invalidRequest 'F' u i]) := by
  revert h
  simp only [FreeSubscriber.get_data, Broker.err_msg]
  repeat' split
  all_goals simp

/-- A denied `PaidSubscriber::get_data` prints the one invalid-request line tagged P. -/
theorem paid_get_data_denied {found : Bool} (b : Broker) (u : Nat) (i : Nat)
    (h : (PaidSubscriber.get_data b u i found).1 = false) :
    PaidSubscriber.get_data b u i found = (false, [Line.invalidRequest 'P' u i]) := by
  revert h
  simp only [PaidSubscriber.get_data, Broker.err_msg]
  repeat' split
  all_goals simp

/-- A denied `get_data` leaves the record as it was and prints one
invalid-request line carrying the id of the record. -/
theorem get_data_denied {found : Bool} (b : Broker) (s : Subscriber) (i : Nat)
    (h : (Subscriber.get_data b s i found).1 = false) :
    ∃ tag, Subscriber.get_data b s i found = (false, s, [Line.invalidRequest tag s.get_id i]) := by
  cases s with
  | free u c =>
    have h2 : (FreeSubscriber.get_data b u c i found).1 = false := by
      simpa [Subscriber.get_data] using h
    exact ⟨'F', by simp [Subscriber.get_data, free_get_data_denied b u c i h2, Subscriber.get_id]⟩
  | paid u =>
    have h2 : (PaidSubscriber.get_data b u i found).1 = false := by
      simpa [Subscriber.get_data] using h
    exact ⟨'P', by simp [Subscriber.get_data, paid_get_data_denied b u i h2, Subscriber.get_id]⟩

/-- The output of a `get_data` command. -/
theorem parseInput_get_data_output {found : Bool} (b : Broker) (t : Char) (u i : Nat) :
    (parseInput (Command.S t u "get_data" i) b found).2 =
      match b.subscribers_ u with
      | some s =>
        if (Subscriber.get_data b s i found).1 = true then (Subscriber.get_data b s i found).2.2
        else (Subscriber.get_data b s i found).2.2 ++ [Line.invalidRequest t u i]
      | none => [Line.invalidRequest t u i] := by
  have h1 : ¬ ("get_data" = "subscribe") := by decide
  simp only [parseInput, h1, if_false, if_true, Broker.get_subscriber, Broker.err_msg]
  cases hs : b.subscribers_ u with
  | none => rfl
  | some s =>
    simp only
    cases hr : (Subscriber.get_data b s i found).1 <;> simp

/-- The method `EquityPublisher::update_data` never writes the subscription index. -/
theorem equity_update_data_index (q : Publisher) (i : Nat) (p x : Rat) :
    (EquityPublisher.update_data q i p x).instrumentSubscribers_ = q.instrumentSubscribers_ := by
  unfold EquityPublisher.update_data
  split <;> rfl

/-- The method `BondPublisher::update_data` never writes the subscription index. -/
theorem bond_update_data_index (q : Publisher) (i : Nat) (p x : Rat) :
    (BondPublisher.update_data q i p x).instrumentSubscribers_ = q.instrumentSubscribers_ := by
  unfold BondPublisher.update_data
  split <;> rfl

/-- The state after an `S` command whose action is neither `subscribe` nor `get_data`. -/
theorem parseInput_unknown_action {found : Bool} (b : Broker) (t : Char) (u i : Nat) (action : String)
    (h1 : action ≠ "subscribe") (h2 : action ≠ "get_data") :
    parseInput (Command.S t u action i) b found = (b, [Line.invalidRequest t u i]) := by
  simp [parseInput, h1, h2, Broker.err_msg]

/-- The state after a `get_data` command naming an unregistered subscriber. -/
theorem parseInput_get_data_unknown {found : Bool} (b : Broker) (t : Char) (u i : Nat)
    (hs : b.subscribers_ u = none) :
    parseInput (Command.S t u "get_data" i) b found = (b, [Line.invalidRequest t u i]) := by
  have h1 : ¬ ("get_data" = "subscribe") := by decide
  simp [parseInput, h1, Broker.get_subscriber, hs, Broker.err_msg]

/-- The equity subscription index after one command: it is written only by a
`subscribe` command for an equity instrument. -/
theorem equity_index_step {found : Bool} (c : Command) (b : Broker) :
    (parseInput c b found).1.equityPublisher_.instrumentSubscribers_ =
      match c with
      | .S _ v action j =>
        if action = "subscribe" ∧ j < 1000 then
          (b.equityPublisher_.subscribe j v).instrumentSubscribers_
        else b.equityPublisher_.instrumentSubscribers_
      | _ => b.equityPublisher_.instrumentSubscribers_ := by
  cases c with
  | P j p x =>
    simp only [parseInput]
    split
    · exact equity_update_data_index _ _ _ _
    · split <;> rfl
  | other s => rfl
  | S t v action j =>
    simp only
    by_cases ha : action = "subscribe"
    · subst ha
      rw [parseInput_subscribe_state]
      unfold Subscriber.subscribe
      by_cases hj : j < 1000
      · simp [(equity_valid_iff j).2 hj, hj, Broker.add_subscriber]
      · have hv : EquityPublisher.is_valid_instrument j = false := by
          simpa [EquityPublisher.is_valid_instrument, EQUITY_INSTRUMENT_MAX] using hj
        simp only [hv, hj, and_false, if_false, Bool.false_eq_true]
        split <;> rfl
    · simp only [ha, false_and, if_false]
      by_cases hg : action = "get_data"
      · subst hg
        cases hs : b.subscribers_ v with
        | none => rw [parseInput_get_data_unknown b t v j hs]
        | some s => rw [parseInput_get_data_state b t v j s hs]
      · rw [parseInput_unknown_action b t v j action ha hg]

/-- The bond subscription index after one command: it is written only by a
`subscribe` command for a bond instrument. -/
theorem bond_index_step {found : Bool} (c : Command) (b : Broker) :
    (parseInput c b found).1.bondPublisher_.instrumentSubscribers_ =
      match c with
      | .S _ v action j =>
        if action = "subscribe" ∧ 1000 ≤ j ∧ j < 2000 then
          (b.bondPublisher_.subscribe j v).instrumentSubscribers_
        else b.bondPublisher_.instrumentSubscribers_
      | _ => b.bondPublisher_.instrumentSubscribers_ := by
  cases c with
  | P j p x =>
    simp only [parseInput]
    split
    · rfl
    · split
      · exact bond_update_data_index _ _ _ _
      · rfl
  | other s => rfl
  | S t v action j =>
    simp only
    by_cases ha : action = "subscribe"
    · subst ha
      rw [parseInput_subscribe_state]
      unfold Subscriber.subscribe
      by_cases hj : j < 1000
      · have hn : ¬ (1000 ≤ j ∧ j < 2000) := by omega
        simp [(equity_valid_iff j).2 hj, hn, Broker.add_subscriber]
      · have hv : EquityPublisher.is_valid_instrument j = false := by
          simpa [EquityPublisher.is_valid_instrument, EQUITY_INSTRUMENT_MAX] using hj
        by_cases hb : j < 2000
        · have hbv := (bond_valid_iff j).2 ⟨by omega, hb⟩
          have hr : 1000 ≤ j ∧ j < 2000 := ⟨by omega, hb⟩
          simp [hv, hbv, hr, Broker.add_subscriber]
        · have hbv : BondPublisher.is_valid_instrument j = false := by
            rw [Bool.eq_false_iff, Ne, bond_valid_iff]; omega
          have hr : ¬ (1000 ≤ j ∧ j < 2000) := by omega
          simp [hv, hbv, hr, Broker.add_subscriber]
    · simp only [ha, false_and, if_false]
      by_cases hg : action = "get_data"
      · subst hg
        cases hs : b.subscribers_ v with
        | none => rw [parseInput_get_data_unknown b t v j hs]
        | some s => rw [parseInput_get_data_state b t v j s hs]
      · rw [parseInput_unknown_action b t v j action ha hg]

/-- The registry after one command: a `subscribe` command installs a fresh
record, a `get_data` command of a registered subscriber writes back the record
that served it, and nothing else writes the registry. -/
theorem registry_step {found : Bool} (c : Command) (b : Broker) :
    (parseInput c b found).1.subscribers_ =
      match c with
      | .S t v action j =>
        if action = "subscribe" then
          mapSet b.subscribers_ v (if t = 'P' then Subscriber.paid v else Subscriber.free v 0)
        else if action = "get_data" then
          match b.subscribers_ v with
          | some s => mapSet b.subscribers_ v (Subscriber.get_data b s j found).2.1
          | none => b.subscribers_
        else b.subscribers_
      | _ => b.subscribers_ := by
  cases c with
  | P j p x =>
    simp only [parseInput]
    split
    · rfl
    · split <;> rfl
  | other s => rfl
  | S t v action j =>
    simp only
    by_cases ha : action = "subscribe"
    · subst ha
      rw [subscribe_registry]
      simp
    · simp only [ha, if_false]
      by_cases hg : action = "get_data"
      · subst hg
        cases hs : b.subscribers_ v with
        | none => rw [parseInput_get_data_unknown b t v j hs]; simp
        | some s => rw [parseInput_get_data_state b t v j s hs]; simp
      · rw [parseInput_unknown_action b t v j action ha hg]
        simp [hg]

/-- Writing back to the registry the record that is already there leaves the
broker as it was. -/
theorem broker_write_back (b : Broker) (u : Nat) (s : Subscriber)
    (hs : b.subscribers_ u = some s) :
    ({ b with subscribers_ := mapSet b.subscribers_ u s } : Broker) = b := by
  cases b with
  | mk e d r =>
    simp only at hs
    simp only [mapSet_self r u s hs]

/-- A successful `get_data` prints exactly one line, a data line tagged `F`,
whichever kind of record serves it. -/
theorem get_data_success_output {found : Bool} (b : Broker) (s : Subscriber) (i : Nat)
    (h : (Subscriber.get_data b s i found).1 = true) :
    (∃ p v, (Subscriber.get_data b s i found).2.2 = [Line.equityData 'F' s.get_id i p v]) ∨
    (∃ p y, (Subscriber.get_data b s i found).2.2 = [Line.bondData 'F' s.get_id i p y]) := by
  cases s with
  | free u c =>
    revert h
    simp only [Subscriber.get_data, FreeSubscriber.get_data, Broker.err_msg, Subscriber.get_id]
    repeat' split
    all_goals simp
  | paid u =>
    revert h
    simp only [Subscriber.get_data, PaidSubscriber.get_data, Broker.err_msg, Subscriber.get_id]
    repeat' split
    all_goals simp

/-- A `PaidSubscriber::get_data` call returns the record as it was. -/
theorem paid_get_data_record {found : Bool} (b : Broker) (u i : Nat) :
    (Subscriber.get_data b (Subscriber.paid u) i found).2.1 = Subscriber.paid u := rfl

/-- The output of a denied `get_data` command of a registered subscriber: the
line printed by the record, then the line printed by `parseInput`. -/
theorem registered_denial_output {found : Bool} (b : Broker) (t : Char) (u i : Nat) (s : Subscriber)
    (hs : b.subscribers_ u = some s) (hden : (Subscriber.get_data b s i found).1 = false) :
    ∃ tag, (parseInput (Command.S t u "get_data" i) b found).2
      = [Line.invalidRequest tag s.get_id i, Line.invalidRequest t u i] := by
  obtain ⟨tag, htag⟩ := get_data_denied b s i hden
  refine ⟨tag, ?_⟩
  rw [parseInput_get_data_output, hs]
  simp [htag]

/-- When a request for an equity instrument is granted, the line shows the price
of the stored snapshot and the `lastDayVolume` field, which `Message::Message`
never assigned. -/
theorem equity_success_prints_unassigned_volume (b : Broker) (s : Subscriber) (i : Nat)
    (p v : Rat) (found : Bool) (hi : i < 1000)
    (hd : b.equityPublisher_.instrumentData_ i = some (Message.create i p v))
    (h : (Subscriber.get_data b s i found).1 = true) :
    (Subscriber.get_data b s i found).2.2 = [Line.equityData 'F' s.get_id i (some p) none] := by
  have hv := (equity_valid_iff i).2 hi
  have hm := Message.create_equity i p v hi
  cases s with
  | free u c =>
    revert h
    simp only [Subscriber.get_data, FreeSubscriber.get_data, Broker.err_msg, Subscriber.get_id,
      hv, if_true, Publisher.get_data, hd, hm]
    repeat' split
    all_goals simp
  | paid u =>
    revert h
    simp only [Subscriber.get_data, PaidSubscriber.get_data, Broker.err_msg, Subscriber.get_id,
      hv, if_true, Publisher.get_data, hd, hm]
    repeat' split
    all_goals simp

/-- When a request for a bond instrument is granted, the line shows the price of
the stored snapshot and the `bondYield` field, which `Message::Message` never
assigned. -/
theorem bond_success_prints_unassigned_yield (b : Broker) (s : Subscriber) (i : Nat)
    (p y : Rat) (found : Bool) (h1 : 1000 ≤ i) (h2 : i < 2000)
    (hd : b.bondPublisher_.instrumentData_ i = some (Message.create i p y))
    (h : (Subscriber.get_data b s i found).1 = true) :
    (Subscriber.get_data b s i found).2.2 = [Line.bondData 'F' s.get_id i (some p) none] := by
  have hv : EquityPublisher.is_valid_instrument i = false := by
    rw [Bool.eq_false_iff, Ne, equity_valid_iff]; omega
  have hbv := (bond_valid_iff i).2 ⟨h1, h2⟩
  have hm := Message.create_bond i p y h1 h2
  cases s with
  | free u c =>
    revert h
    simp only [Subscriber.get_data, FreeSubscriber.get_data, Broker.err_msg, Subscriber.get_id,
      hv, hbv, if_true, if_false, Bool.false_eq_true, Publisher.get_data, hd, hm]
    repeat' split
    all_goals simp
  | paid u =>
    revert h
    simp only [Subscriber.get_data, PaidSubscriber.get_data, Broker.err_msg, Subscriber.get_id,
      hv, hbv, if_true, if_false, Bool.false_eq_true, Publisher.get_data, hd, hm]
    repeat' split
    all_goals simp

/-- A run of `get_data` commands of a registered Free subscriber in which no read
through the dangling iterator finds the instrument: every call is denied with two
invalid-request lines and the record is left as it was. -/
theorem denied_run (u i : Nat) (k : Nat) :
    ∀ (b : Broker) (c : Int), b.subscribers_ u = some (Subscriber.free u c) →
      (runCommands (List.replicate k (Command.S 'F' u "get_data" i)) (fun _ => false) b).1.subscribers_
          u = some (Subscriber.free u c) ∧
      (runCommands (List.replicate k (Command.S 'F' u "get_data" i)) (fun _ => false) b).2
          = List.replicate (2 * k) (Line.invalidRequest 'F' u i) := by
  induction k with
  | zero =>
    intro b c hs
    exact ⟨hs, rfl⟩
  | succ k ih =>
    intro b c hs
    have hden : (Subscriber.get_data b (Subscriber.free u c) i false).1 = false := by
      rw [Bool.eq_false_iff]
      intro h
      have := ((get_data_true_iff b _ i false).1 h).2.2.2
      cases this
    obtain ⟨tag, htag⟩ := registered_denial_output b 'F' u i _ hs hden
    have hfree := free_get_data_denied b u c i (by simpa [Subscriber.get_data] using hden)
    have hout : (parseInput (Command.S 'F' u "get_data" i) b false).2
        = [Line.invalidRequest 'F' u i, Line.invalidRequest 'F' u i] := by
      rw [parseInput_get_data_output, hs]
      simp [Subscriber.get_data, hfree]
    have hst := @parseInput_get_data_state false b 'F' u i _ hs
    rw [free_get_data_count, if_neg (by simp [hden])] at hst
    have hs2 : (parseInput (Command.S 'F' u "get_data" i) b false).1.subscribers_ u
        = some (Subscriber.free u c) := by
      rw [hst]; exact mapSet_same _ _ _
    obtain ⟨ih1, ih2⟩ := ih _ c hs2
    simp only [List.replicate_succ, runCommands]
    refine ⟨ih1, ?_⟩
    rw [ih2, hout]
    have e : 2 * (k + 1) = 2 * k + 1 + 1 := by omega
    rw [e, List.replicate_succ, List.replicate_succ]
    rfl

/-! ## Claims -/

/-- C1 (evaluation of the program): after `S F 1 subscribe 50` instrument 50 is in
the equity entry of subscriber 1, yet the request `S F 1 get_data 50` is denied
when the read through the dangling iterator does not find it, and two
invalid-request lines are printed; likewise for the Paid subscriber 2 and the bond
instrument 1500.  The outcome is decided by a read of freed memory, not by
membership in the entry. -/
theorem C1_subscribed_request_denied :
    (parseInput (Command.S 'F' 1 "subscribe" 50)
      Broker.empty false).1.equityPublisher_.instrumentSubscribers_ 1 = some [50] ∧
    Subscriber.get_data (parseInput (Command.S 'F' 1 "subscribe" 50) Broker.empty false).1
        (Subscriber.free 1 0) 50 false
      = (false, Subscriber.free 1 0, [Line.invalidRequest 'F' 1 50]) ∧
    (parseInput (Command.S 'F' 1 "get_data" 50)
        (parseInput (Command.S 'F' 1 "subscribe" 50) Broker.empty false).1 false).2
      = [Line.invalidRequest 'F' 1 50, Line.invalidRequest 'F' 1 50] ∧
    (parseInput (Command.S 'P' 2 "subscribe" 1500)
      Broker.empty false).1.bondPublisher_.instrumentSubscribers_ 2 = some [1500] ∧
    (parseInput (Command.S 'P' 2 "get_data" 1500)
        (parseInput (Command.S 'P' 2 "subscribe" 1500) Broker.empty false).1 false).2
      = [Line.invalidRequest 'P' 2 1500, Line.invalidRequest 'P' 2 1500] := by
  refine ⟨?_, ?_, ?_, ?_, ?_⟩ <;> rfl

/-- C2 (evaluation of the program): after `S F 1 subscribe 50` on the fresh broker,
101 consecutive `S F 1 get_data 50` commands whose reads through the dangling
iterator do not find the instrument are all denied: the request count is still
0 and the output is 202 invalid-request lines, no data line. -/
theorem C2_subscribed_requests_all_denied :
    (runCommands (List.replicate 101 (Command.S 'F' 1 "get_data" 50)) (fun _ => false)
        (parseInput (Command.S 'F' 1 "subscribe" 50) Broker.empty false).1).1.subscribers_ 1
      = some (Subscriber.free 1 0) ∧
    (runCommands (List.replicate 101 (Command.S 'F' 1 "get_data" 50)) (fun _ => false)
        (parseInput (Command.S 'F' 1 "subscribe" 50) Broker.empty false).1).2
      = List.replicate (2 * 101) (Line.invalidRequest 'F' 1 50) :=
  denied_run 1 50 101 _ 0 rfl

/-- C3 (evaluation of the program): after `P 50 100.5 20000`, `S F 1 subscribe 50`,
`S F 1 get_data 50` on the fresh broker the stored snapshot of instrument 50 has
the published 20000 in `bondYield` and no value in `lastDayVolume`, the field the
equity data line prints; and the request itself is denied when the read through
the dangling iterator does not find the instrument, so the output is the
subscribe confirmation and two invalid-request lines. -/
theorem C3_equity_volume_not_stored :
    (runCommands [Command.P 50 100.5 20000, Command.S 'F' 1 "subscribe" 50,
        Command.S 'F' 1 "get_data" 50] (fun _ => false)
        Broker.empty).1.equityPublisher_.instrumentData_ 50 =
      some { instrumentId := some 50, lastTradedPrice := some 100.5, bondYield := some 20000,
             lastDayVolume := none } ∧
    (runCommands [Command.P 50 100.5 20000, Command.S 'F' 1 "subscribe" 50,
        Command.S 'F' 1 "get_data" 50] (fun _ => false) Broker.empty).2 =
      [Line.subscribed 1 'F' 50, Line.invalidRequest 'F' 1 50, Line.invalidRequest 'F' 1 50] := by
  constructor <;> rfl

/-- C4 (evaluation of the program): after `P 1500 98.2 4.5`, `S P 2 subscribe 1500`,
`S P 2 get_data 1500` on the fresh broker the stored snapshot of instrument 1500
has the published 4.5 converted into `lastDayVolume` and no value in `bondYield`,
the field the bond data line prints; and the request itself is denied when the
read through the dangling iterator does not find the instrument, so the output is
the subscribe confirmation and two invalid-request lines. -/
theorem C4_bond_yield_not_stored :
    (runCommands [Command.P 1500 98.2 4.5, Command.S 'P' 2 "subscribe" 1500,
        Command.S 'P' 2 "get_data" 1500] (fun _ => false)
        Broker.empty).1.bondPublisher_.instrumentData_ 1500 =
      some { instrumentId := some 1500, lastTradedPrice := some 98.2, bondYield := none,
             lastDayVolume := doubleToUInt64 4.5 } ∧
    (runCommands [Command.P 1500 98.2 4.5, Command.S 'P' 2 "subscribe" 1500,
        Command.S 'P' 2 "get_data" 1500] (fun _ => false) Broker.empty).2 =
      [Line.subscribed 2 'P' 1500, Line.invalidRequest 'P' 2 1500,
        Line.invalidRequest 'P' 2 1500] := by
  constructor <;> rfl

/-- The feeds after `Subscriber::subscribe`: an entry of the subscriber in either
subscription index keeps all its instruments. -/
theorem Publisher.subscribe_keeps (p : Publisher) (i u j : Nat) (ids : List Nat)
    (h : p.instrumentSubscribers_ u = some ids) (hj : j ∈ ids) :
    ∃ ids2, (p.subscribe i u).instrumentSubscribers_ u = some ids2 ∧ j ∈ ids2 := by
  rw [Publisher.subscribe_index, mapSet_same, h]
  refine ⟨_, rfl, ?_⟩
  simp only [Option.getD_some]
  split
  · exact hj
  · exact List.mem_append_left _ hj

/-- C5: after a subscribe command `(t, u, i)` on any broker, the registry maps `u`
to a fresh record of tier `t` (Paid for the character P, Free otherwise, request
count 0) whatever was there before, and every instrument that was in the entry of
`u` in the subscription index of either feed is still in it. -/
theorem C5_subscribe_replaces_record_keeps_membership (found : Bool) (b : Broker) (t : Char) (u i : Nat) :
    (parseInput (Command.S t u "subscribe" i) b found).1.subscribers_ u
      = some (if t = 'P' then Subscriber.paid u else Subscriber.free u 0) ∧
    (∀ j ids, b.equityPublisher_.instrumentSubscribers_ u = some ids → j ∈ ids →
      ∃ ids2, (parseInput (Command.S t u "subscribe" i) b found).1.equityPublisher_.instrumentSubscribers_
        u = some ids2 ∧ j ∈ ids2) ∧
    (∀ j ids, b.bondPublisher_.instrumentSubscribers_ u = some ids → j ∈ ids →
      ∃ ids2, (parseInput (Command.S t u "subscribe" i) b found).1.bondPublisher_.instrumentSubscribers_
        u = some ids2 ∧ j ∈ ids2) := by
  refine ⟨?_, ?_, ?_⟩
  · rw [subscribe_registry, mapSet_same]
  · intro j ids h hj
    rw [parseInput_subscribe_state]
    unfold Subscriber.subscribe
    split
    · exact Publisher.subscribe_keeps _ i u j ids h hj
    · split
      · exact ⟨ids, h, hj⟩
      · exact ⟨ids, h, hj⟩
  · intro j ids h hj
    rw [parseInput_subscribe_state]
    unfold Subscriber.subscribe
    split
    · exact ⟨ids, h, hj⟩
    · split
      · exact Publisher.subscribe_keeps _ i u j ids h hj
      · exact ⟨ids, h, hj⟩

/-- C5 at the concrete scenario: `S F 7 subscribe 5` then `S P 7 subscribe 5` from
the fresh broker leaves subscriber 7 Paid and still a member for instrument 5. -/
theorem C5_subscribe_replaces_record_keeps_membership_witness :
    (parseInput (Command.S 'P' 7 "subscribe" 5)
        (parseInput (Command.S 'F' 7 "subscribe" 5) Broker.empty false).1 false).1.subscribers_ 7
      = some (Subscriber.paid 7) ∧
    ∃ ids2, (parseInput (Command.S 'P' 7 "subscribe" 5)
        (parseInput (Command.S 'F' 7 "subscribe" 5) Broker.empty false).1 false).1.equityPublisher_.instrumentSubscribers_
        7 = some ids2 ∧ 5 ∈ ids2 :=
  ⟨(C5_subscribe_replaces_record_keeps_membership false
      (parseInput (Command.S 'F' 7 "subscribe" 5) Broker.empty false).1 'P' 7 5).1,
   (C5_subscribe_replaces_record_keeps_membership false
      (parseInput (Command.S 'F' 7 "subscribe" 5) Broker.empty false).1 'P' 7 5).2.1 5 [5]
      (by rfl) (by decide)⟩

/-- C6: `Publisher::subscribe` is idempotent: a second identical call leaves the
publisher (snapshot store and subscription index) as the first call left it; and
from an index without an entry for `u`, two identical calls give `u` the
one-element entry `[i]`. -/
theorem C6_subscribe_idempotent (p : Publisher) (i u : Nat) :
    (p.subscribe i u).subscribe i u = p.subscribe i u ∧
    (p.instrumentSubscribers_ u = none →
      ((p.subscribe i u).subscribe i u).instrumentSubscribers_ u = some [i] ∧
      ∀ ids, ((p.subscribe i u).subscribe i u).instrumentSubscribers_ u = some ids →
        ids.length = 1) := by
  have hidem : (p.subscribe i u).subscribe i u = p.subscribe i u := by
    obtain ⟨ids, hids, hmem⟩ := Publisher.subscribe_mem p i u
    have hidx := Publisher.subscribe_index (p.subscribe i u) i u
    rw [hids] at hidx
    simp only [Option.getD_some, hmem, if_true] at hidx
    rw [mapSet_self _ _ _ hids] at hidx
    have hdat := Publisher.subscribe_data (p.subscribe i u) i u
    cases hq : (p.subscribe i u).subscribe i u with
    | mk d x =>
      cases hp : p.subscribe i u with
      | mk d2 x2 =>
        rw [hq, hp] at hidx hdat
        simp only at hidx hdat
        rw [hidx, hdat]
  refine ⟨hidem, ?_⟩
  intro hnone
  have h1 : ((p.subscribe i u).subscribe i u).instrumentSubscribers_ u = some [i] := by
    rw [hidem, Publisher.subscribe_index, mapSet_same, hnone]
    simp
  refine ⟨h1, ?_⟩
  intro ids hids
  rw [h1] at hids
  cases hids
  rfl

/-- C6 at a concrete input: subscribing subscriber 7 to instrument 5 twice on a
fresh publisher leaves the entry `[5]`. -/
theorem C6_subscribe_idempotent_witness :
    ((Publisher.empty.subscribe 5 7).subscribe 5 7).instrumentSubscribers_ 7 = some [5] :=
  ((C6_subscribe_idempotent Publisher.empty 5 7).2 rfl).1

/-- C7: the equity feed accepts exactly the ids below 1000 and the bond feed
exactly the ids from 1000 up to, not including, 2000; so no id is valid for both,
every id below 1000 is equity-valid and not bond-valid, and every id from 2000 on
is valid for neither (for all natural numbers, so for all 64-bit ids). -/
theorem C7_valid_ranges (id : Nat) :
    (EquityPublisher.is_valid_instrument id = true ↔ id < 1000) ∧
    (BondPublisher.is_valid_instrument id = true ↔ 1000 ≤ id ∧ id < 2000) ∧
    ¬ (EquityPublisher.is_valid_instrument id = true ∧
        BondPublisher.is_valid_instrument id = true) ∧
    (id < 1000 → EquityPublisher.is_valid_instrument id = true ∧
        BondPublisher.is_valid_instrument id = false) ∧
    (2000 ≤ id → EquityPublisher.is_valid_instrument id = false ∧
        BondPublisher.is_valid_instrument id = false) := by
  have he := equity_valid_iff id
  have hb := bond_valid_iff id
  refine ⟨he, hb, ?_, ?_, ?_⟩
  · rw [he, hb]; omega
  · intro h
    refine ⟨he.2 h, ?_⟩
    rw [Bool.eq_false_iff, Ne, hb]; omega
  · intro h
    constructor
    · rw [Bool.eq_false_iff, Ne, he]; omega
    · rw [Bool.eq_false_iff, Ne, hb]; omega

/-- C7 at concrete ids: 999 is equity-valid only and 2000 is valid for neither feed. -/
theorem C7_valid_ranges_witness :
    (EquityPublisher.is_valid_instrument 999 = true ∧
        BondPublisher.is_valid_instrument 999 = false) ∧
    (EquityPublisher.is_valid_instrument 2000 = false ∧
        BondPublisher.is_valid_instrument 2000 = false) :=
  ⟨(C7_valid_ranges 999).2.2.2.1 (by decide), (C7_valid_ranges 2000).2.2.2.2 (by decide)⟩

/-- C8: latest wins.  On a fresh feed `Publisher::get_data` reports not-found for
every instrument; after `update_data i p x` with `i` valid for the feed (equity or
bond), `get_data i` reports found with a snapshot whose instrument id is `i` and
whose last traded price is `p`, whatever was stored before, and `get_data j` for
every other `j` gives what it gave before the update. -/
theorem C8_latest_wins (q : Publisher) (i : Nat) (p x : Rat) (d : Message) :
    (Publisher.empty.get_data i d).1 = false ∧
    (EquityPublisher.is_valid_instrument i = true →
      ((EquityPublisher.update_data q i p x).get_data i d).1 = true ∧
      ((EquityPublisher.update_data q i p x).get_data i d).2.instrumentId = some i ∧
      ((EquityPublisher.update_data q i p x).get_data i d).2.lastTradedPrice = some p) ∧
    (BondPublisher.is_valid_instrument i = true →
      ((BondPublisher.update_data q i p x).get_data i d).1 = true ∧
      ((BondPublisher.update_data q i p x).get_data i d).2.instrumentId = some i ∧
      ((BondPublisher.update_data q i p x).get_data i d).2.lastTradedPrice = some p) ∧
    (∀ j, j ≠ i →
      (EquityPublisher.update_data q i p x).get_data j d = q.get_data j d ∧
      (BondPublisher.update_data q i p x).get_data j d = q.get_data j d) := by
  refine ⟨rfl, ?_, ?_, ?_⟩
  · intro hv
    have hi := (equity_valid_iff i).1 hv
    simp [EquityPublisher.update_data, hv, Publisher.get_data, mapSet,
      Message.create_equity i p x hi]
  · intro hv
    have hi := (bond_valid_iff i).1 hv
    simp [BondPublisher.update_data, hv, Publisher.get_data, mapSet,
      Message.create_bond i p x hi.1 hi.2]
  · intro j hj
    constructor
    · unfold EquityPublisher.update_data
      split
      · simp [Publisher.get_data, mapSet, hj]
      · rfl
    · unfold BondPublisher.update_data
      split
      · simp [Publisher.get_data, mapSet, hj]
      · rfl

/-- C8 at concrete inputs: on an equity feed that already holds a snapshot for
instrument 50, the update `(50, 7, 9)` makes `get_data 50` report found with
price 7; on a fresh bond feed the update `(1500, 3, 4)` does the same with price 3;
instrument 51 is looked up as before. -/
theorem C8_latest_wins_witness :
    (((EquityPublisher.update_data (EquityPublisher.update_data Publisher.empty 50 1 2)
        50 7 9).get_data 50 Message.empty).1 = true ∧
     ((EquityPublisher.update_data (EquityPublisher.update_data Publisher.empty 50 1 2)
        50 7 9).get_data 50 Message.empty).2.instrumentId = some 50 ∧
     ((EquityPublisher.update_data (EquityPublisher.update_data Publisher.empty 50 1 2)
        50 7 9).get_data 50 Message.empty).2.lastTradedPrice = some 7) ∧
    (((BondPublisher.update_data Publisher.empty 1500 3 4).get_data 1500 Message.empty).1 = true ∧
     ((BondPublisher.update_data Publisher.empty 1500 3 4).get_data 1500
        Message.empty).2.instrumentId = some 1500 ∧
     ((BondPublisher.update_data Publisher.empty 1500 3 4).get_data 1500
        Message.empty).2.lastTradedPrice = some 3) ∧
    ((EquityPublisher.update_data (EquityPublisher.update_data Publisher.empty 50 1 2)
        50 7 9).get_data 51 Message.empty
      = (EquityPublisher.update_data Publisher.empty 50 1 2).get_data 51 Message.empty) :=
  ⟨(C8_latest_wins (EquityPublisher.update_data Publisher.empty 50 1 2) 50 7 9
      Message.empty).2.1 (by decide),
   (C8_latest_wins Publisher.empty 1500 3 4 Message.empty).2.2.1 (by decide),
   ((C8_latest_wins (EquityPublisher.update_data Publisher.empty 50 1 2) 50 7 9
      Message.empty).2.2.2 51 (by decide)).1⟩

/-- C9: for each feed, `update_data` with an id that is not valid for the feed
returns the feed unchanged (snapshot store and subscription index); the method
has no result or output through which an error could be signalled. -/
theorem C9_invalid_update_is_noop (q : Publisher) (id : Nat) (p x : Rat) :
    (EquityPublisher.is_valid_instrument id = false →
      EquityPublisher.update_data q id p x = q) ∧
    (BondPublisher.is_valid_instrument id = false →
      BondPublisher.update_data q id p x = q) := by
  constructor
  · intro h; simp [EquityPublisher.update_data, h]
  · intro h; simp [BondPublisher.update_data, h]

/-- C9 at concrete inputs: the equity feed ignores an update for 1500 and the bond
feed ignores updates for 50 and for 2500. -/
theorem C9_invalid_update_is_noop_witness :
    EquityPublisher.update_data Publisher.empty 1500 1 2 = Publisher.empty ∧
    BondPublisher.update_data Publisher.empty 50 1 2 = Publisher.empty ∧
    BondPublisher.update_data Publisher.empty 2500 1 2 = Publisher.empty :=
  ⟨(C9_invalid_update_is_noop Publisher.empty 1500 1 2).1 (by decide),
   (C9_invalid_update_is_noop Publisher.empty 50 1 2).2 (by decide),
   (C9_invalid_update_is_noop Publisher.empty 2500 1 2).2 (by decide)⟩

/-- C10: a publish command for an instrument id from 2000 on leaves the whole
broker (both snapshot stores, both subscription indexes, the registry) unchanged
and prints only the no-publisher line; and in every reachable state a `get_data`
for such an id is a denial: every record's `get_data` returns false, and the
command prints invalid-request lines for that instrument and nothing else.  This
holds whatever a read through the dangling iterator would give (`found`): for
these ids no lookup is made. -/
theorem C10_unroutable_instrument (b : Broker) (i : Nat) (p x : Rat) (found : Bool)
    (hi : 2000 ≤ i) :
    parseInput (Command.P i p x) b found = (b, [Line.noPublisher]) ∧
    (Reachable b →
      (∀ s, (Subscriber.get_data b s i found).1 = false) ∧
      ∀ t u, (parseInput (Command.S t u "get_data" i) b found).2 ≠ [] ∧
        ∀ l ∈ (parseInput (Command.S t u "get_data" i) b found).2,
          ∃ t2 u2, l = Line.invalidRequest t2 u2 i) := by
  have hden : ∀ s, (Subscriber.get_data b s i found).1 = false := by
    intro s
    rw [Bool.eq_false_iff]
    intro h
    have := ((get_data_true_iff b s i found).1 h).2.1
    omega
  refine ⟨?_, fun _ => ⟨hden, ?_⟩⟩
  · have h1 : ¬ i < EQUITY_INSTRUMENT_MAX := by simp [EQUITY_INSTRUMENT_MAX]; omega
    have h2 : ¬ i < BOND_INSTRUMENT_MAX := by simp [BOND_INSTRUMENT_MAX]; omega
    simp [parseInput, h1, h2]
  · intro t u
    rw [parseInput_get_data_output]
    cases hs : b.subscribers_ u with
    | none => simp
    | some s =>
      obtain ⟨tag, htag⟩ := get_data_denied b s i (hden s)
      simp [htag]


/-- C10 at the concrete input `P 2500 1.0 2.0`, in the state reached by
`S F 1 subscribe 2500`: the publish changes nothing, and requests for 2500 are denied. -/
theorem C10_unroutable_instrument_witness :
    parseInput (Command.P 2500 1 2)
        (runCommands [Command.S 'F' 1 "subscribe" 2500] (fun _ => false) Broker.empty).1 false
      = ((runCommands [Command.S 'F' 1 "subscribe" 2500] (fun _ => false) Broker.empty).1,
          [Line.noPublisher]) ∧
    ∀ s, (Subscriber.get_data
      (runCommands [Command.S 'F' 1 "subscribe" 2500] (fun _ => false) Broker.empty).1
      s 2500 false).1 = false :=
  ⟨(C10_unroutable_instrument
      (runCommands [Command.S 'F' 1 "subscribe" 2500] (fun _ => false) Broker.empty).1
      2500 1 2 false (by decide)).1,
   ((C10_unroutable_instrument
      (runCommands [Command.S 'F' 1 "subscribe" 2500] (fun _ => false) Broker.empty).1
      2500 1 2 false (by decide)).2
      ⟨[Command.S 'F' 1 "subscribe" 2500], fun _ => false, rfl⟩).1⟩

/-- C11 (evaluation of the program): a denied `get_data` command of a registered
subscriber prints two invalid-request lines, one from the `get_data` method of the
record (with the tag of the record) and one from `parseInput` (with the tier
character of the command); only the unknown-subscriber path prints one line.
Shown after `S F 1 subscribe 50`: the not-subscribed request `S F 1 get_data 60`
and the same request sent as `S P 1 get_data 60` (the read through the dangling
iterator does not find 60), the request of the unknown subscriber 9, and, whatever
that read would give, the requests for the unroutable instrument 2500 and for the
bond instrument 1500, for which subscriber 1 has no entry. -/
theorem C11_denial_prints_two_lines :
    (parseInput (Command.S 'F' 1 "get_data" 60)
        (parseInput (Command.S 'F' 1 "subscribe" 50) Broker.empty false).1 false).2
      = [Line.invalidRequest 'F' 1 60, Line.invalidRequest 'F' 1 60] ∧
    (parseInput (Command.S 'P' 1 "get_data" 60)
        (parseInput (Command.S 'F' 1 "subscribe" 50) Broker.empty false).1 false).2
      = [Line.invalidRequest 'F' 1 60, Line.invalidRequest 'P' 1 60] ∧
    (∀ found, (parseInput (Command.S 'F' 9 "get_data" 60)
        (parseInput (Command.S 'F' 1 "subscribe" 50) Broker.empty false).1 found).2
      = [Line.invalidRequest 'F' 9 60]) ∧
    (∀ found, (parseInput (Command.S 'F' 1 "get_data" 2500)
        (parseInput (Command.S 'F' 1 "subscribe" 50) Broker.empty false).1 found).2
      = [Line.invalidRequest 'F' 1 2500, Line.invalidRequest 'F' 1 2500]) ∧
    (∀ found, (parseInput (Command.S 'P' 1 "get_data" 1500)
        (parseInput (Command.S 'F' 1 "subscribe" 50) Broker.empty false).1 found).2
      = [Line.invalidRequest 'F' 1 1500, Line.invalidRequest 'P' 1 1500]) := by
  refine ⟨rfl, rfl, ?_, ?_, ?_⟩ <;> intro found <;> cases found <;> rfl

/-- C12: a `get_data` command naming a subscriber that is not in the registry is
denied with the one invalid-request line for `(t, u, i)` and no data line, and the
whole broker is unchanged; in particular the lookup creates no record for `u`. -/
theorem C12_unknown_subscriber_denied (b : Broker) (t : Char) (u i : Nat) (found : Bool)
    (hs : b.get_subscriber u = none) :
    parseInput (Command.S t u "get_data" i) b found = (b, [Line.invalidRequest t u i]) ∧
    (parseInput (Command.S t u "get_data" i) b found).1.subscribers_ u = none := by
  have h := @parseInput_get_data_unknown found b t u i hs
  refine ⟨h, ?_⟩
  rw [h]
  exact hs

/-- C12 at a concrete input: subscriber 9 is unknown after `S F 1 subscribe 50`. -/
theorem C12_unknown_subscriber_denied_witness :
    parseInput (Command.S 'P' 9 "get_data" 50)
        (parseInput (Command.S 'F' 1 "subscribe" 50) Broker.empty false).1 false
      = ((parseInput (Command.S 'F' 1 "subscribe" 50) Broker.empty false).1,
          [Line.invalidRequest 'P' 9 50]) ∧
    (parseInput (Command.S 'P' 9 "get_data" 50)
        (parseInput (Command.S 'F' 1 "subscribe" 50) Broker.empty false).1 false).1.subscribers_ 9 = none :=
  C12_unknown_subscriber_denied (parseInput (Command.S 'F' 1 "subscribe" 50) Broker.empty false).1
    'P' 9 50 false (by rfl)


/-- C13: a `get_data` command leaves both feeds (snapshot stores and subscription
indexes), the set of registered subscribers and every other record as they were.
The record that served the call is the only thing that can change: when it is
Free and the call succeeds its request count grows by exactly 1; on every denial
(the quota path included), on every Paid call and for an unknown subscriber the
broker is exactly unchanged.  This holds whatever the read through the dangling
iterator gives (`found`). -/
theorem C13_get_data_frame (b : Broker) (t : Char) (u i : Nat) (found : Bool) :
    (parseInput (Command.S t u "get_data" i) b found).1.equityPublisher_ = b.equityPublisher_ ∧
    (parseInput (Command.S t u "get_data" i) b found).1.bondPublisher_ = b.bondPublisher_ ∧
    (∀ v, v ≠ u →
      (parseInput (Command.S t u "get_data" i) b found).1.subscribers_ v = b.subscribers_ v) ∧
    (∀ v, ((parseInput (Command.S t u "get_data" i) b found).1.subscribers_ v).isSome
      = (b.subscribers_ v).isSome) ∧
    (b.subscribers_ u = none → (parseInput (Command.S t u "get_data" i) b found).1 = b) ∧
    (∀ s, b.subscribers_ u = some s →
      ((Subscriber.get_data b s i found).1 = false →
        (Subscriber.get_data b s i found).2.1 = s ∧
        (parseInput (Command.S t u "get_data" i) b found).1 = b) ∧
      (∀ id, s = Subscriber.paid id →
        (Subscriber.get_data b s i found).2.1 = s ∧
        (parseInput (Command.S t u "get_data" i) b found).1 = b) ∧
      (∀ id c, s = Subscriber.free id c → (Subscriber.get_data b s i found).1 = true →
        (Subscriber.get_data b s i found).2.1 = Subscriber.free id (c + 1) ∧
        (parseInput (Command.S t u "get_data" i) b found).1.subscribers_ u
          = some (Subscriber.free id (c + 1)))) := by
  cases hs : b.subscribers_ u with
  | none =>
    rw [@parseInput_get_data_unknown found b t u i hs]
    refine ⟨rfl, rfl, fun _ _ => rfl, fun _ => rfl, fun _ => rfl, ?_⟩
    intro s h
    cases h
  | some s0 =>
    rw [@parseInput_get_data_state found b t u i s0 hs]
    refine ⟨rfl, rfl, ?_, ?_, ?_, ?_⟩
    · intro v hv
      exact mapSet_other _ _ _ _ hv
    · intro v
      by_cases hv : v = u
      · subst hv; simp [mapSet, hs]
      · simp [mapSet, hv]
    · intro h
      cases h
    · intro s h
      cases h
      refine ⟨?_, ?_, ?_⟩
      · intro hden
        obtain ⟨tag, htag⟩ := @get_data_denied found b s0 i hden
        rw [htag]
        exact ⟨rfl, broker_write_back b u s0 hs⟩
      · intro id hid
        subst hid
        rw [paid_get_data_record]
        exact ⟨rfl, broker_write_back b u _ hs⟩
      · intro id c hid hok
        subst hid
        rw [free_get_data_count, if_pos hok]
        exact ⟨rfl, mapSet_same _ _ _⟩

/-- C13 at concrete inputs.  After `S F 1 subscribe 50` the request of subscriber 1
for the bond instrument 1500, for which it has no entry, changes nothing.  After
`S F 1 subscribe 50`, `S F 1 subscribe 51`, `S F 1 subscribe 52` the request for 52,
when the read through the dangling iterator finds it, sets the count of
subscriber 1 to 1. -/
theorem C13_get_data_frame_witness :
    (parseInput (Command.S 'F' 1 "get_data" 1500)
        (parseInput (Command.S 'F' 1 "subscribe" 50) Broker.empty false).1 false).1
      = (parseInput (Command.S 'F' 1 "subscribe" 50) Broker.empty false).1 ∧
    (parseInput (Command.S 'F' 1 "get_data" 52)
        (runCommands [Command.S 'F' 1 "subscribe" 50, Command.S 'F' 1 "subscribe" 51,
          Command.S 'F' 1 "subscribe" 52] (fun _ => false) Broker.empty).1 true).1.subscribers_ 1
      = some (Subscriber.free 1 (0 + 1)) :=
  ⟨(((C13_get_data_frame (parseInput (Command.S 'F' 1 "subscribe" 50) Broker.empty false).1
      'F' 1 1500 false).2.2.2.2.2 (Subscriber.free 1 0) (by rfl)).1 (by rfl)).2,
   (((C13_get_data_frame
      (runCommands [Command.S 'F' 1 "subscribe" 50, Command.S 'F' 1 "subscribe" 51,
          Command.S 'F' 1 "subscribe" 52] (fun _ => false) Broker.empty).1
      'F' 1 52 true).2.2.2.2.2 (Subscriber.free 1 0) (by rfl)).2.2 1 0 rfl (by rfl)).2⟩

/-- C14: a subscribe command `(t, u, i)` with `i` from 2000 on leaves both feeds
exactly unchanged (subscription indexes and snapshot stores; no entry, not even
an empty one, appears for `u`), while the registry slot of `u` is still
overwritten with a fresh record of the named tier. -/
theorem C14_unroutable_subscribe (b : Broker) (t : Char) (u i : Nat) (found : Bool)
    (hi : 2000 ≤ i) :
    (parseInput (Command.S t u "subscribe" i) b found).1.equityPublisher_ = b.equityPublisher_ ∧
    (parseInput (Command.S t u "subscribe" i) b found).1.bondPublisher_ = b.bondPublisher_ ∧
    (b.equityPublisher_.instrumentSubscribers_ u = none →
      (parseInput (Command.S t u "subscribe" i) b found).1.equityPublisher_.instrumentSubscribers_ u
        = none) ∧
    (b.bondPublisher_.instrumentSubscribers_ u = none →
      (parseInput (Command.S t u "subscribe" i) b found).1.bondPublisher_.instrumentSubscribers_ u
        = none) ∧
    (parseInput (Command.S t u "subscribe" i) b found).1.subscribers_ u
      = some (if t = 'P' then Subscriber.paid u else Subscriber.free u 0) ∧
    (∀ v, v ≠ u →
      (parseInput (Command.S t u "subscribe" i) b found).1.subscribers_ v = b.subscribers_ v) := by
  have hv : EquityPublisher.is_valid_instrument i = false := by
    rw [Bool.eq_false_iff, Ne, equity_valid_iff]; omega
  have hbv : BondPublisher.is_valid_instrument i = false := by
    rw [Bool.eq_false_iff, Ne, bond_valid_iff]; omega
  have hst : (parseInput (Command.S t u "subscribe" i) b found).1 =
      b.add_subscriber u (if t = 'P' then Subscriber.paid u else Subscriber.free u 0) := by
    rw [parseInput_subscribe_state]
    simp [Subscriber.subscribe, hv, hbv]
  rw [hst]
  refine ⟨rfl, rfl, fun h => h, fun h => h, mapSet_same _ _ _, ?_⟩
  intro v hvu
  exact mapSet_other _ _ _ _ hvu

/-- C14 at a concrete input: `S P 3 subscribe 2500` on the fresh broker creates no
index entry for subscriber 3 and registers a Paid record. -/
theorem C14_unroutable_subscribe_witness :
    (parseInput (Command.S 'P' 3 "subscribe" 2500) Broker.empty false).1.equityPublisher_
      = Broker.empty.equityPublisher_ ∧
    (parseInput (Command.S 'P' 3 "subscribe" 2500) Broker.empty false).1.bondPublisher_
      = Broker.empty.bondPublisher_ ∧
    (parseInput (Command.S 'P' 3 "subscribe" 2500)
      Broker.empty false).1.bondPublisher_.instrumentSubscribers_ 3 = none ∧
    (parseInput (Command.S 'P' 3 "subscribe" 2500) Broker.empty false).1.subscribers_ 3
      = some (if 'P' = 'P' then Subscriber.paid 3 else Subscriber.free 3 0) :=
  ⟨(C14_unroutable_subscribe Broker.empty 'P' 3 2500 false (by decide)).1,
   (C14_unroutable_subscribe Broker.empty 'P' 3 2500 false (by decide)).2.1,
   (C14_unroutable_subscribe Broker.empty 'P' 3 2500 false (by decide)).2.2.2.1 rfl,
   (C14_unroutable_subscribe Broker.empty 'P' 3 2500 false (by decide)).2.2.2.2.1⟩

/-- C15 (evaluation of the program): after `P 52 100.5 20000`, `S P 3 subscribe 50`,
`S P 3 subscribe 51`, `S P 3 subscribe 52` on the fresh broker the record of
subscriber 3 is Paid and its equity entry is `[50, 51, 52]`; the request
`S P 3 get_data 52`, when the read through the dangling iterator finds 52, is
granted, and the one line it prints starts with the tag `F`.  The same happens
for the bond instruments 1500, 1501, 1502. -/
theorem C15_paid_success_line_tagged_F :
    (runCommands [Command.P 52 100.5 20000, Command.S 'P' 3 "subscribe" 50,
        Command.S 'P' 3 "subscribe" 51, Command.S 'P' 3 "subscribe" 52] (fun _ => false)
        Broker.empty).1.subscribers_ 3 = some (Subscriber.paid 3) ∧
    (runCommands [Command.P 52 100.5 20000, Command.S 'P' 3 "subscribe" 50,
        Command.S 'P' 3 "subscribe" 51, Command.S 'P' 3 "subscribe" 52] (fun _ => false)
        Broker.empty).1.equityPublisher_.instrumentSubscribers_ 3 = some [50, 51, 52] ∧
    (parseInput (Command.S 'P' 3 "get_data" 52)
        (runCommands [Command.P 52 100.5 20000, Command.S 'P' 3 "subscribe" 50,
          Command.S 'P' 3 "subscribe" 51, Command.S 'P' 3 "subscribe" 52] (fun _ => false)
          Broker.empty).1 true).2
      = [Line.equityData 'F' 3 52 (some 100.5) none] ∧
    (parseInput (Command.S 'P' 3 "get_data" 1502)
        (runCommands [Command.S 'P' 3 "subscribe" 1500, Command.S 'P' 3 "subscribe" 1501,
          Command.S 'P' 3 "subscribe" 1502] (fun _ => false) Broker.empty).1 true).2
      = [Line.bondData 'F' 3 1502 none none] := by
  refine ⟨?_, ?_, ?_, ?_⟩ <;> rfl

/-- An instrument found in an entry after `Publisher::subscribe` was in that entry
before, or it is the instrument just subscribed, in the entry of the subscriber
named in the call. -/
theorem Publisher.subscribe_mem_origin (p : Publisher) (j v u i : Nat) (ids : List Nat)
    (h : (p.subscribe j v).instrumentSubscribers_ u = some ids) (hi : i ∈ ids) :
    (∃ ids0, p.instrumentSubscribers_ u = some ids0 ∧ i ∈ ids0) ∨ (u = v ∧ i = j) := by
  rw [Publisher.subscribe_index] at h
  by_cases huv : u = v
  · subst huv
    rw [mapSet_same] at h
    cases hold : p.instrumentSubscribers_ u with
    | none =>
      rw [hold] at h
      simp only [Option.getD_none, List.not_mem_nil, if_false, List.nil_append,
        Option.some.injEq] at h
      subst h
      right
      exact ⟨rfl, by simpa using hi⟩
    | some l =>
      rw [hold] at h
      simp only [Option.getD_some, Option.some.injEq] at h
      by_cases hj : j ∈ l
      · rw [if_pos hj] at h
        subst h
        exact Or.inl ⟨_, rfl, hi⟩
      · rw [if_neg hj] at h
        subst h
        rcases List.mem_append.1 hi with h1 | h1
        · exact Or.inl ⟨_, rfl, h1⟩
        · right
          exact ⟨rfl, by simpa using h1⟩
  · rw [mapSet_other _ _ _ _ huv] at h
    exact Or.inl ⟨ids, h, hi⟩

/-- One command: an instrument in an equity-index entry afterwards was there
before, or the command is a subscribe naming that subscriber and that
instrument, which is below 1000. -/
theorem equity_member_step {found : Bool} (c : Command) (b : Broker) (u i : Nat) (ids : List Nat)
    (h : (parseInput c b found).1.equityPublisher_.instrumentSubscribers_ u = some ids) (hi : i ∈ ids) :
    (∃ ids0, b.equityPublisher_.instrumentSubscribers_ u = some ids0 ∧ i ∈ ids0) ∨
      (i < 1000 ∧ ∃ t, c = Command.S t u "subscribe" i) := by
  rw [equity_index_step] at h
  cases c with
  | P j p x => exact Or.inl ⟨ids, h, hi⟩
  | other s => exact Or.inl ⟨ids, h, hi⟩
  | S t v action j =>
    simp only at h
    by_cases hc : action = "subscribe" ∧ j < 1000
    · rw [if_pos hc] at h
      rcases Publisher.subscribe_mem_origin _ j v u i ids h hi with h1 | ⟨h1, h2⟩
      · exact Or.inl h1
      · right
        subst h1 h2
        exact ⟨hc.2, t, by rw [hc.1]⟩
    · rw [if_neg hc] at h
      exact Or.inl ⟨ids, h, hi⟩

/-- One command: an instrument in a bond-index entry afterwards was there before,
or the command is a subscribe naming that subscriber and that instrument, which
is in the bond range. -/
theorem bond_member_step {found : Bool} (c : Command) (b : Broker) (u i : Nat) (ids : List Nat)
    (h : (parseInput c b found).1.bondPublisher_.instrumentSubscribers_ u = some ids) (hi : i ∈ ids) :
    (∃ ids0, b.bondPublisher_.instrumentSubscribers_ u = some ids0 ∧ i ∈ ids0) ∨
      ((1000 ≤ i ∧ i < 2000) ∧ ∃ t, c = Command.S t u "subscribe" i) := by
  rw [bond_index_step] at h
  cases c with
  | P j p x => exact Or.inl ⟨ids, h, hi⟩
  | other s => exact Or.inl ⟨ids, h, hi⟩
  | S t v action j =>
    simp only at h
    by_cases hc : action = "subscribe" ∧ 1000 ≤ j ∧ j < 2000
    · rw [if_pos hc] at h
      rcases Publisher.subscribe_mem_origin _ j v u i ids h hi with h1 | ⟨h1, h2⟩
      · exact Or.inl h1
      · right
        subst h1 h2
        exact ⟨hc.2, t, by rw [hc.1]⟩
    · rw [if_neg hc] at h
      exact Or.inl ⟨ids, h, hi⟩

/-- A run of commands: an instrument in an equity-index entry at the end was
there at the start or was put there by a subscribe command of the run. -/
theorem equity_member_run (u i : Nat) (cs : List Command) :
    ∀ (reads : Nat → Bool) (b : Broker) (ids : List Nat),
      (runCommands cs reads b).1.equityPublisher_.instrumentSubscribers_ u = some ids → i ∈ ids →
      (∃ ids0, b.equityPublisher_.instrumentSubscribers_ u = some ids0 ∧ i ∈ ids0) ∨
        (i < 1000 ∧ ∃ t, Command.S t u "subscribe" i ∈ cs) := by
  induction cs with
  | nil =>
    intro reads b ids h hi
    exact Or.inl ⟨ids, h, hi⟩
  | cons c cs ih =>
    intro reads b ids h hi
    simp only [runCommands] at h
    rcases ih _ _ ids h hi with ⟨ids1, h1, hi1⟩ | ⟨hlt, t, ht⟩
    · rcases equity_member_step c b u i ids1 h1 hi1 with h2 | ⟨hlt, t, ht⟩
      · exact Or.inl h2
      · exact Or.inr ⟨hlt, t, by rw [ht]; exact List.mem_cons_self _ _⟩
    · exact Or.inr ⟨hlt, t, List.mem_cons_of_mem _ ht⟩

/-- A run of commands: an instrument in a bond-index entry at the end was there
at the start or was put there by a subscribe command of the run. -/
theorem bond_member_run (u i : Nat) (cs : List Command) :
    ∀ (reads : Nat → Bool) (b : Broker) (ids : List Nat),
      (runCommands cs reads b).1.bondPublisher_.instrumentSubscribers_ u = some ids → i ∈ ids →
      (∃ ids0, b.bondPublisher_.instrumentSubscribers_ u = some ids0 ∧ i ∈ ids0) ∨
        ((1000 ≤ i ∧ i < 2000) ∧ ∃ t, Command.S t u "subscribe" i ∈ cs) := by
  induction cs with
  | nil =>
    intro reads b ids h hi
    exact Or.inl ⟨ids, h, hi⟩
  | cons c cs ih =>
    intro reads b ids h hi
    simp only [runCommands] at h
    rcases ih _ _ ids h hi with ⟨ids1, h1, hi1⟩ | ⟨hlt, t, ht⟩
    · rcases bond_member_step c b u i ids1 h1 hi1 with h2 | ⟨hlt, t, ht⟩
      · exact Or.inl h2
      · exact Or.inr ⟨hlt, t, by rw [ht]; exact List.mem_cons_self _ _⟩
    · exact Or.inr ⟨hlt, t, List.mem_cons_of_mem _ ht⟩

/-- C16: in the state reached from the empty broker by any command sequence `cs`,
an instrument `i` is in the entry of subscriber `u` in the equity index only if
`i < 1000` and `cs` contains a subscribe command naming `(u, i)`, and it is in the
entry of `u` in the bond index only if `1000 ≤ i < 2000` and `cs` contains a
subscribe command naming `(u, i)`. -/
theorem C16_membership_only_from_subscribe (cs : List Command) (reads : Nat → Bool) (u i : Nat)
    (ids : List Nat) :
    ((runCommands cs reads Broker.empty).1.equityPublisher_.instrumentSubscribers_ u = some ids →
      i ∈ ids → i < 1000 ∧ ∃ t, Command.S t u "subscribe" i ∈ cs) ∧
    ((runCommands cs reads Broker.empty).1.bondPublisher_.instrumentSubscribers_ u = some ids →
      i ∈ ids → (1000 ≤ i ∧ i < 2000) ∧ ∃ t, Command.S t u "subscribe" i ∈ cs) := by
  constructor
  · intro h hi
    rcases equity_member_run u i cs reads Broker.empty ids h hi with ⟨ids0, h0, _⟩ | h1
    · cases h0
    · exact h1
  · intro h hi
    rcases bond_member_run u i cs reads Broker.empty ids h hi with ⟨ids0, h0, _⟩ | h1
    · cases h0
    · exact h1

/-- C16 at a concrete run: after `P 50 1 2`, `S F 1 subscribe 50`, `S P 2 subscribe 1500`
instrument 50 is in the equity entry `[50]` of subscriber 1, and 1500 is in the
bond entry `[1500]` of subscriber 2. -/
theorem C16_membership_only_from_subscribe_witness :
    ((50 : Nat) < 1000 ∧ ∃ t, Command.S t 1 "subscribe" 50 ∈
      [Command.P 50 1 2, Command.S 'F' 1 "subscribe" 50, Command.S 'P' 2 "subscribe" 1500]) ∧
    (((1000 : Nat) ≤ 1500 ∧ (1500 : Nat) < 2000) ∧ ∃ t, Command.S t 2 "subscribe" 1500 ∈
      [Command.P 50 1 2, Command.S 'F' 1 "subscribe" 50, Command.S 'P' 2 "subscribe" 1500]) :=
  ⟨(C16_membership_only_from_subscribe
      [Command.P 50 1 2, Command.S 'F' 1 "subscribe" 50, Command.S 'P' 2 "subscribe" 1500]
      (fun _ => false) 1 50 [50]).1 (by rfl) (by decide),
   (C16_membership_only_from_subscribe
      [Command.P 50 1 2, Command.S 'F' 1 "subscribe" 50, Command.S 'P' 2 "subscribe" 1500]
      (fun _ => false) 2 1500 [1500]).2 (by rfl) (by decide)⟩

/-- Duplicate-freeness of every entry survives `Publisher::subscribe`. -/
theorem Publisher.subscribe_nodup (p : Publisher) (i u : Nat)
    (h : ∀ v ids, p.instrumentSubscribers_ v = some ids → ids.Nodup) :
    ∀ v ids, (p.subscribe i u).instrumentSubscribers_ v = some ids → ids.Nodup := by
  intro v ids hv
  rw [Publisher.subscribe_index] at hv
  by_cases hvu : v = u
  · subst hvu
    rw [mapSet_same] at hv
    have hold : ((p.instrumentSubscribers_ v).getD []).Nodup := by
      cases ho : p.instrumentSubscribers_ v with
      | none => simp
      | some l => simpa using h v l ho
    by_cases hi : i ∈ (p.instrumentSubscribers_ v).getD []
    · rw [if_pos hi] at hv
      cases hv
      exact hold
    · rw [if_neg hi] at hv
      cases hv
      rw [List.nodup_append]
      refine ⟨hold, List.nodup_singleton i, ?_⟩
      intro a ha hb
      rw [List.mem_singleton] at hb
      subst hb
      exact hi ha
  · rw [mapSet_other _ _ _ _ hvu] at hv
    exact h v ids hv

/-- Duplicate-freeness of both subscription indexes survives any command. -/
theorem nodup_step {found : Bool} (c : Command) (b : Broker)
    (h : (∀ v ids, b.equityPublisher_.instrumentSubscribers_ v = some ids → ids.Nodup) ∧
      (∀ v ids, b.bondPublisher_.instrumentSubscribers_ v = some ids → ids.Nodup)) :
    (∀ v ids, (parseInput c b found).1.equityPublisher_.instrumentSubscribers_ v = some ids →
        ids.Nodup) ∧
    (∀ v ids, (parseInput c b found).1.bondPublisher_.instrumentSubscribers_ v = some ids →
        ids.Nodup) := by
  rw [equity_index_step, bond_index_step]
  cases c with
  | P j p x => exact h
  | other s => exact h
  | S t w action j =>
    simp only
    constructor
    · split
      · exact Publisher.subscribe_nodup _ j w h.1
      · exact h.1
    · split
      · exact Publisher.subscribe_nodup _ j w h.2
      · exact h.2

/-- Duplicate-freeness of both subscription indexes survives any run of commands. -/
theorem nodup_run (cs : List Command) :
    ∀ (reads : Nat → Bool) (b : Broker),
      ((∀ v ids, b.equityPublisher_.instrumentSubscribers_ v = some ids → ids.Nodup) ∧
        (∀ v ids, b.bondPublisher_.instrumentSubscribers_ v = some ids → ids.Nodup)) →
      (∀ v ids, (runCommands cs reads b).1.equityPublisher_.instrumentSubscribers_ v = some ids →
          ids.Nodup) ∧
      (∀ v ids, (runCommands cs reads b).1.bondPublisher_.instrumentSubscribers_ v = some ids →
          ids.Nodup) := by
  induction cs with
  | nil => intro reads b h; exact h
  | cons c cs ih =>
    intro reads b h
    simp only [runCommands]
    exact ih _ _ (nodup_step c b h)

/-- C17: `Publisher::subscribe` preserves duplicate-freeness: if no entry of a
subscription index repeats an id, none does after `subscribe i u`; hence in every
state reachable from the empty broker no entry of either index repeats an id. -/
theorem C17_entries_duplicate_free (p : Publisher) (i u : Nat) (b : Broker) :
    ((∀ v ids, p.instrumentSubscribers_ v = some ids → ids.Nodup) →
      ∀ v ids, (p.subscribe i u).instrumentSubscribers_ v = some ids → ids.Nodup) ∧
    (Reachable b →
      (∀ v ids, b.equityPublisher_.instrumentSubscribers_ v = some ids → ids.Nodup) ∧
      (∀ v ids, b.bondPublisher_.instrumentSubscribers_ v = some ids → ids.Nodup)) := by
  refine ⟨Publisher.subscribe_nodup p i u, ?_⟩
  rintro ⟨cs, reads, rfl⟩
  apply nodup_run cs reads Broker.empty
  constructor <;> intro v ids h <;> cases h

/-- C17 at concrete inputs: subscribing subscriber 7 to instrument 5 on a
publisher whose index holds `[5, 6]` for 7 keeps that entry duplicate-free, and
so is the equity entry of subscriber 1 after two subscribe commands for 50. -/
theorem C17_entries_duplicate_free_witness :
    (∀ ids, (((Publisher.empty.subscribe 5 7).subscribe 6 7).subscribe 5
        7).instrumentSubscribers_ 7 = some ids → ids.Nodup) ∧
    (∀ ids, (runCommands [Command.S 'F' 1 "subscribe" 50, Command.S 'P' 1 "subscribe" 50] (fun _ => false)
        Broker.empty).1.equityPublisher_.instrumentSubscribers_ 1 = some ids → ids.Nodup) :=
  ⟨(C17_entries_duplicate_free ((Publisher.empty.subscribe 5 7).subscribe 6 7) 5 7
      Broker.empty).1
      (by
        intro v ids h
        by_cases hv : v = 7
        · subst hv
          have e : ((Publisher.empty.subscribe 5 7).subscribe 6 7).instrumentSubscribers_ 7
              = some [5, 6] := by rfl
          rw [e] at h
          cases h
          decide
        · have e : ((Publisher.empty.subscribe 5 7).subscribe 6 7).instrumentSubscribers_ v
              = none := by
            simp [Publisher.subscribe_index, mapSet, hv, Publisher.empty]
          rw [e] at h
          cases h) 7,
   ((C17_entries_duplicate_free Publisher.empty 0 0
      (runCommands [Command.S 'F' 1 "subscribe" 50, Command.S 'P' 1 "subscribe" 50] (fun _ => false)
        Broker.empty).1).2 ⟨_, _, rfl⟩).1 1⟩

/-- C18: a subscribe command `(t, u, i)` with `i < 2000` changes the subscription
indexes only in the entry of `u` in the feed owning `i`, which becomes the old
entry with `i` added (unless already there).  The other feed, the entries of all
other subscribers in the owning feed and both snapshot stores are unchanged. -/
theorem C18_subscribe_frame (b : Broker) (t : Char) (u i : Nat) (found : Bool) :
    (i < 1000 →
      (parseInput (Command.S t u "subscribe" i) b found).1.bondPublisher_ = b.bondPublisher_ ∧
      (parseInput (Command.S t u "subscribe" i) b found).1.equityPublisher_.instrumentData_
        = b.equityPublisher_.instrumentData_ ∧
      (∀ v, v ≠ u →
        (parseInput (Command.S t u "subscribe" i) b found).1.equityPublisher_.instrumentSubscribers_ v
          = b.equityPublisher_.instrumentSubscribers_ v) ∧
      (parseInput (Command.S t u "subscribe" i) b found).1.equityPublisher_.instrumentSubscribers_ u
        = some (if i ∈ (b.equityPublisher_.instrumentSubscribers_ u).getD []
            then (b.equityPublisher_.instrumentSubscribers_ u).getD []
            else (b.equityPublisher_.instrumentSubscribers_ u).getD [] ++ [i])) ∧
    (1000 ≤ i → i < 2000 →
      (parseInput (Command.S t u "subscribe" i) b found).1.equityPublisher_ = b.equityPublisher_ ∧
      (parseInput (Command.S t u "subscribe" i) b found).1.bondPublisher_.instrumentData_
        = b.bondPublisher_.instrumentData_ ∧
      (∀ v, v ≠ u →
        (parseInput (Command.S t u "subscribe" i) b found).1.bondPublisher_.instrumentSubscribers_ v
          = b.bondPublisher_.instrumentSubscribers_ v) ∧
      (parseInput (Command.S t u "subscribe" i) b found).1.bondPublisher_.instrumentSubscribers_ u
        = some (if i ∈ (b.bondPublisher_.instrumentSubscribers_ u).getD []
            then (b.bondPublisher_.instrumentSubscribers_ u).getD []
            else (b.bondPublisher_.instrumentSubscribers_ u).getD [] ++ [i])) := by
  constructor
  · intro hi
    have hst : (parseInput (Command.S t u "subscribe" i) b found).1 =
        { (b.add_subscriber u (if t = 'P' then Subscriber.paid u else Subscriber.free u 0)) with
          equityPublisher_ := b.equityPublisher_.subscribe i u } := by
      rw [parseInput_subscribe_state]
      simp [Subscriber.subscribe, (equity_valid_iff i).2 hi, Broker.add_subscriber]
    rw [hst]
    refine ⟨rfl, Publisher.subscribe_data _ _ _, ?_, ?_⟩
    · intro v hv
      simp only [Publisher.subscribe_index]
      exact mapSet_other _ _ _ _ hv
    · simp only [Publisher.subscribe_index]
      exact mapSet_same _ _ _
  · intro h1 h2
    have hv : EquityPublisher.is_valid_instrument i = false := by
      rw [Bool.eq_false_iff, Ne, equity_valid_iff]; omega
    have hst : (parseInput (Command.S t u "subscribe" i) b found).1 =
        { (b.add_subscriber u (if t = 'P' then Subscriber.paid u else Subscriber.free u 0)) with
          bondPublisher_ := b.bondPublisher_.subscribe i u } := by
      rw [parseInput_subscribe_state]
      simp [Subscriber.subscribe, hv, (bond_valid_iff i).2 ⟨h1, h2⟩, Broker.add_subscriber]
    rw [hst]
    refine ⟨rfl, Publisher.subscribe_data _ _ _, ?_, ?_⟩
    · intro v hv
      simp only [Publisher.subscribe_index]
      exact mapSet_other _ _ _ _ hv
    · simp only [Publisher.subscribe_index]
      exact mapSet_same _ _ _

/-- C18 at concrete inputs: after `S F 1 subscribe 50`, the command
`S F 1 subscribe 1500` leaves the equity feed as it was, and the command
`S F 1 subscribe 51` leaves the bond feed as it was. -/
theorem C18_subscribe_frame_witness :
    (parseInput (Command.S 'F' 1 "subscribe" 1500)
        (parseInput (Command.S 'F' 1 "subscribe" 50) Broker.empty false).1 false).1.equityPublisher_
      = (parseInput (Command.S 'F' 1 "subscribe" 50) Broker.empty false).1.equityPublisher_ ∧
    (parseInput (Command.S 'F' 1 "subscribe" 51)
        (parseInput (Command.S 'F' 1 "subscribe" 50) Broker.empty false).1 false).1.bondPublisher_
      = (parseInput (Command.S 'F' 1 "subscribe" 50) Broker.empty false).1.bondPublisher_ :=
  ⟨((C18_subscribe_frame (parseInput (Command.S 'F' 1 "subscribe" 50) Broker.empty false).1
      'F' 1 1500 false).2 (by decide) (by decide)).1,
   ((C18_subscribe_frame (parseInput (Command.S 'F' 1 "subscribe" 50) Broker.empty false).1
      'F' 1 51 false).1 (by decide)).1⟩

/-- A Free record serves a request only while its count is below 100. -/
theorem free_success_lt {found : Bool} (b : Broker) (id : Nat) (c : Int) (i : Nat)
    (h : (Subscriber.get_data b (Subscriber.free id c) i found).1 = true) : c < 100 := by
  rcases ((get_data_true_iff b _ i found).1 h).1 with ⟨v, hv⟩ | ⟨v, d, hv, hd⟩
  · cases hv
  · cases hv
    exact hd

/-- The bounds on the request count of every Free record survive any command. -/
theorem count_bounds_step {found : Bool} (c : Command) (b : Broker)
    (h : ∀ v id n, b.subscribers_ v = some (Subscriber.free id n) → 0 ≤ n ∧ n ≤ 100) :
    ∀ v id n, (parseInput c b found).1.subscribers_ v = some (Subscriber.free id n) →
      0 ≤ n ∧ n ≤ 100 := by
  intro v id n hv
  rw [registry_step] at hv
  cases c with
  | P j p x => exact h v id n hv
  | other s => exact h v id n hv
  | S t w action j =>
    simp only at hv
    by_cases ha : action = "subscribe"
    · rw [if_pos ha] at hv
      by_cases hvw : v = w
      · subst hvw
        rw [mapSet_same] at hv
        by_cases ht : t = 'P'
        · rw [if_pos ht] at hv
          cases hv
        · rw [if_neg ht] at hv
          cases hv
          norm_num
      · rw [mapSet_other _ _ _ _ hvw] at hv
        exact h v id n hv
    · rw [if_neg ha] at hv
      by_cases hg : action = "get_data"
      · rw [if_pos hg] at hv
        cases hs : b.subscribers_ w with
        | none =>
          rw [hs] at hv
          exact h v id n hv
        | some s =>
          rw [hs] at hv
          simp only at hv
          by_cases hvw : v = w
          · subst hvw
            rw [mapSet_same] at hv
            cases s with
            | paid id2 => simp [paid_get_data_record] at hv
            | free id2 n2 =>
              rw [free_get_data_count] at hv
              have hold := h v id2 n2 hs
              by_cases hok : (Subscriber.get_data b (Subscriber.free id2 n2) j found).1 = true
              · have hlt := free_success_lt b id2 n2 j hok
                rw [if_pos hok] at hv
                cases hv
                omega
              · rw [if_neg hok] at hv
                cases hv
                exact hold
          · rw [mapSet_other _ _ _ _ hvw] at hv
            exact h v id n hv
      · rw [if_neg hg] at hv
        exact h v id n hv

/-- The bounds on the request count of every Free record survive any run. -/
theorem count_bounds_run (cs : List Command) :
    ∀ (reads : Nat → Bool) (b : Broker),
      (∀ v id n, b.subscribers_ v = some (Subscriber.free id n) → 0 ≤ n ∧ n ≤ 100) →
      ∀ v id n, (runCommands cs reads b).1.subscribers_ v = some (Subscriber.free id n) →
        0 ≤ n ∧ n ≤ 100 := by
  induction cs with
  | nil => intro reads b h; exact h
  | cons c cs ih =>
    intro reads b h
    simp only [runCommands]
    exact ih _ _ (count_bounds_step c b h)

/-- Over a run without a subscribe command for `u`, the count of the Free record
of `u` grows by the number of requests it served and stays at most 100. -/
theorem served_run (u : Nat) (cs : List Command) :
    ∀ (reads : Nat → Bool) (b : Broker) (id : Nat) (n : Int), b.subscribers_ u = some (Subscriber.free id n) →
      n ≤ 100 → (∀ t j, Command.S t u "subscribe" j ∉ cs) →
      n + (servedRequests u cs reads b : Int) ≤ 100 ∧
      (runCommands cs reads b).1.subscribers_ u
        = some (Subscriber.free id (n + (servedRequests u cs reads b : Int))) := by
  induction cs with
  | nil =>
    intro reads b id n hs hn _
    simp [servedRequests, runCommands, hs, hn]
  | cons c cs ih =>
    intro reads b id n hs hn hno
    have hno2 : ∀ t j, Command.S t u "subscribe" j ∉ cs := by
      intro t j hmem
      exact hno t j (List.mem_cons_of_mem _ hmem)
    simp only [runCommands, servedRequests]
    have hreg := @registry_step (reads 0) c b
    cases c with
    | P j p x =>
      simp only at hreg
      have := ih (fun k => reads (k + 1)) (parseInput (Command.P j p x) b (reads 0)).1 id n (by rw [hreg]; exact hs) hn hno2
      simpa using this
    | other s =>
      simp only at hreg
      have := ih (fun k => reads (k + 1)) (parseInput (Command.other s) b (reads 0)).1 id n (by rw [hreg]; exact hs) hn hno2
      simpa using this
    | S t w action j =>
      simp only at hreg
      by_cases ha : action = "subscribe"
      · have hwu : u ≠ w := by
          intro e
          subst e ha
          exact hno t j (List.mem_cons_self _ _)
        have hg : ¬ (w = u ∧ action = "get_data") := fun h => hwu h.1.symm
        rw [if_pos ha] at hreg
        have := ih (fun k => reads (k + 1)) (parseInput (Command.S t w action j) b (reads 0)).1 id n
          (by rw [hreg, mapSet_other _ _ _ _ hwu]; exact hs) hn hno2
        simpa [hg] using this
      · rw [if_neg ha] at hreg
        by_cases hg : action = "get_data"
        · subst hg
          rw [if_pos rfl] at hreg
          by_cases hwu : w = u
          · subst hwu
            rw [hs] at hreg
            simp only at hreg
            rw [free_get_data_count] at hreg
            simp only [and_self, if_true, Broker.get_subscriber, hs]
            by_cases hok : (Subscriber.get_data b (Subscriber.free id n) j (reads 0)).1 = true
            · have hlt := free_success_lt b id n j hok
              rw [if_pos hok] at hreg
              have := ih (fun k => reads (k + 1)) (parseInput (Command.S t w "get_data" j) b (reads 0)).1 id (n + 1)
                (by rw [hreg, mapSet_same]) (by omega) hno2
              simp only [hok, if_true]
              push_cast
              rw [← add_assoc]
              exact this
            · rw [if_neg hok] at hreg
              have := ih (fun k => reads (k + 1)) (parseInput (Command.S t w "get_data" j) b (reads 0)).1 id n
                (by rw [hreg, mapSet_same]) hn hno2
              simpa [hok] using this
          · have hc : ¬ (w = u ∧ "get_data" = "get_data") := fun h => hwu h.1
            have hsame : (parseInput (Command.S t w "get_data" j) b (reads 0)).1.subscribers_ u
                = some (Subscriber.free id n) := by
              rw [hreg]
              cases hw : b.subscribers_ w with
              | none => exact hs
              | some s => simp only; rw [mapSet_other _ _ _ _ (Ne.symm hwu)]; exact hs
            have := ih (fun k => reads (k + 1)) (parseInput (Command.S t w "get_data" j) b (reads 0)).1 id n hsame hn hno2
            simpa [hwu] using this
        · rw [if_neg hg] at hreg
          have hc : ¬ (w = u ∧ action = "get_data") := fun h => hg h.2
          have := ih (fun k => reads (k + 1)) (parseInput (Command.S t w action j) b (reads 0)).1 id n
            (by rw [hreg]; exact hs) hn hno2
          simpa [hc] using this

/-- C19: in every state reachable from the empty broker every Free record has a
request count between 0 and 100, so the increment never leaves the range of a
signed `int` (the count plus one stays below 32767, the least maximum an `int`
may have); and after a Free subscribe command for `u`, over any run of commands
with no further subscribe for `u`, the record of `u` serves at most 100
successful requests.  This holds whatever the reads through the dangling
iterator give (`reads`, `found`). -/
theorem C19_request_count_bounded (b b0 : Broker) (t : Char) (u i : Nat) (cs : List Command)
    (reads : Nat → Bool) (found : Bool) :
    (Reachable b → ∀ v id n, b.subscribers_ v = some (Subscriber.free id n) →
      0 ≤ n ∧ n ≤ 100 ∧ n + 1 < 32767) ∧
    (t ≠ 'P' → (∀ t1 j, Command.S t1 u "subscribe" j ∉ cs) →
      servedRequests u cs reads (parseInput (Command.S t u "subscribe" i) b0 found).1 ≤ 100 ∧
      (runCommands cs reads (parseInput (Command.S t u "subscribe" i) b0 found).1).1.subscribers_ u
        = some (Subscriber.free u
            (servedRequests u cs reads (parseInput (Command.S t u "subscribe" i) b0 found).1 : Int))) := by
  constructor
  · rintro ⟨cs0, reads0, rfl⟩ v id n hv
    have h := count_bounds_run cs0 reads0 Broker.empty (by intro v id n h; cases h) v id n hv
    omega
  · intro ht hno
    have h0 : (parseInput (Command.S t u "subscribe" i) b0 found).1.subscribers_ u
        = some (Subscriber.free u 0) := by
      rw [subscribe_registry]; simp [mapSet, ht]
    obtain ⟨h1, h2⟩ := served_run u cs reads _ u 0 h0 (by norm_num) hno
    rw [zero_add] at h1 h2
    exact ⟨by exact_mod_cast h1, h2⟩


/-- C19 at a concrete run: after `S F 1 subscribe 50` and 101 requests for 50 the
record of subscriber 1 is within the bounds, and over those 101 requests, none of
whose reads through the dangling iterator finds the instrument, it served at
most 100. -/
theorem C19_request_count_bounded_witness :
    (∀ v id n, (runCommands (Command.S 'F' 1 "subscribe" 50 ::
          List.replicate 101 (Command.S 'F' 1 "get_data" 50)) (fun _ => false)
          Broker.empty).1.subscribers_ v
        = some (Subscriber.free id n) → 0 ≤ n ∧ n ≤ 100 ∧ n + 1 < 32767) ∧
    servedRequests 1 (List.replicate 101 (Command.S 'F' 1 "get_data" 50)) (fun _ => false)
      (parseInput (Command.S 'F' 1 "subscribe" 50) Broker.empty false).1 ≤ 100 :=
  ⟨(C19_request_count_bounded _ Broker.empty 'F' 1 50 [] (fun _ => false) false).1 ⟨_, _, rfl⟩,
   ((C19_request_count_bounded Broker.empty Broker.empty 'F' 1 50
      (List.replicate 101 (Command.S 'F' 1 "get_data" 50)) (fun _ => false) false).2 (by decide)
      (by
        intro t1 j hmem
        have := List.eq_of_mem_replicate hmem
        simp at this)).1⟩


/-- C20: the tier character of a `get_data` command does not influence the
decision.  For any two tier characters and any result `found` of the read
through the dangling iterator (the tier character takes no part in that read),
the two commands leave the same broker
state and agree on success or denial (whether a data line is printed); a data
line is printed exactly when the record stored for `u` grants the request, and on
success the whole output is the same. -/
theorem C20_command_tier_irrelevant (b : Broker) (t1 t2 : Char) (u i : Nat) (found : Bool) :
    (parseInput (Command.S t1 u "get_data" i) b found).1
      = (parseInput (Command.S t2 u "get_data" i) b found).1 ∧
    ((parseInput (Command.S t1 u "get_data" i) b found).2.any Line.isData
      = (parseInput (Command.S t2 u "get_data" i) b found).2.any Line.isData) ∧
    ((parseInput (Command.S t1 u "get_data" i) b found).2.any Line.isData = true ↔
      ∃ s, b.subscribers_ u = some s ∧ (Subscriber.get_data b s i found).1 = true) ∧
    ((∃ s, b.subscribers_ u = some s ∧ (Subscriber.get_data b s i found).1 = true) →
      (parseInput (Command.S t1 u "get_data" i) b found).2
        = (parseInput (Command.S t2 u "get_data" i) b found).2) := by
  have hout : ∀ t : Char,
      ((parseInput (Command.S t u "get_data" i) b found).2.any Line.isData = true ↔
      ∃ s, b.subscribers_ u = some s ∧ (Subscriber.get_data b s i found).1 = true) := by
    intro t
    rw [parseInput_get_data_output]
    cases hs : b.subscribers_ u with
    | none => simp [Line.isData]
    | some s =>
      simp only
      cases hr : (Subscriber.get_data b s i found).1 with
      | true =>
        rcases get_data_success_output b s i hr with ⟨p, v, h⟩ | ⟨p, y, h⟩
        · simp [h, Line.isData, hr]
        · simp [h, Line.isData, hr]
      | false =>
        obtain ⟨tag, htag⟩ := get_data_denied b s i hr
        simp [htag, Line.isData]
  refine ⟨?_, ?_, hout t1, ?_⟩
  · cases hs : b.subscribers_ u with
    | none =>
      rw [@parseInput_get_data_unknown found b t1 u i hs,
        @parseInput_get_data_unknown found b t2 u i hs]
    | some s =>
      rw [@parseInput_get_data_state found b t1 u i s hs,
        @parseInput_get_data_state found b t2 u i s hs]
  · rw [Bool.eq_iff_iff, hout t1, hout t2]
  · rintro ⟨s, hs, hr⟩
    rw [parseInput_get_data_output, parseInput_get_data_output, hs]
    simp [hr]

/-- C20 at concrete inputs.  After `S F 1 subscribe 50` the commands
`S F 1 get_data 1500` and `S P 1 get_data 1500` (subscriber 1 has no bond entry)
leave the same state.  After `S F 1 subscribe 50`, `S F 1 subscribe 51`,
`S F 1 subscribe 52` the commands `S F 1 get_data 52` and `S P 1 get_data 52`,
when the read through the dangling iterator finds 52, print the same lines. -/
theorem C20_command_tier_irrelevant_witness :
    (parseInput (Command.S 'F' 1 "get_data" 1500)
        (parseInput (Command.S 'F' 1 "subscribe" 50) Broker.empty false).1 false).1
      = (parseInput (Command.S 'P' 1 "get_data" 1500)
        (parseInput (Command.S 'F' 1 "subscribe" 50) Broker.empty false).1 false).1 ∧
    (parseInput (Command.S 'F' 1 "get_data" 52)
        (runCommands [Command.S 'F' 1 "subscribe" 50, Command.S 'F' 1 "subscribe" 51,
          Command.S 'F' 1 "subscribe" 52] (fun _ => false) Broker.empty).1 true).2
      = (parseInput (Command.S 'P' 1 "get_data" 52)
        (runCommands [Command.S 'F' 1 "subscribe" 50, Command.S 'F' 1 "subscribe" 51,
          Command.S 'F' 1 "subscribe" 52] (fun _ => false) Broker.empty).1 true).2 :=
  ⟨(C20_command_tier_irrelevant (parseInput (Command.S 'F' 1 "subscribe" 50) Broker.empty false).1
      'F' 'P' 1 1500 false).1,
   (C20_command_tier_irrelevant
      (runCommands [Command.S 'F' 1 "subscribe" 50, Command.S 'F' 1 "subscribe" 51,
          Command.S 'F' 1 "subscribe" 52] (fun _ => false) Broker.empty).1
      'F' 'P' 1 52 true).2.2.2 ⟨Subscriber.free 1 0, by rfl, by rfl⟩⟩

end PubSub
